import Mathlib

/-!
Verification development for the timestampandtz PostgreSQL extension.

The development shallowly embeds the repository code:
  - the TimestampAndTz value type and its comparison operators,
  - the zone catalog (timezones table, tzname_to_tzid, tzid_to_tzname),
  - interval arithmetic (timestampandtz_pl_interval, timestampandtz_mi_interval,
    timestampandtz_mi),
  - typmod precision handling (anytimestamp_typmodin, AdjustTimestampForTypmod),
  - the to_char glue (timestampandtz_to_char) and the relevant renderer cases,
  - the ordinal-suffix helper get_th,
  - the compiled-picture cache (DCH_cache_search, DCH_cache_getnew, DCH_cache_fetch).

External host facilities (the PostgreSQL calendar decomposer timestamp2tm,
the zone-rule resolver DetermineTimeZoneOffset, tm2timestamp, date2j, j2date,
EncodeDateTime) are abstracted as fields of a Host structure: the repository
treats them as black boxes, so every theorem quantifies over an arbitrary Host.

Machine integers are modelled as Int; overflow is not material to any of the
claims settled here. C truncating division and remainder are Int.tdiv and
Int.tmod. A computation result is a CRes: ok, a reported error (ereport or
elog ERROR), or crash for undefined behaviour (out-of-bounds access,
null-pointer dereference).
-/

/-- Result of a C computation: normal result, reported error, or undefined
behaviour such as a null-pointer dereference. -/
inductive CRes (α : Type) where
  | ok (a : α)
  | err (msg : String)
  | crash
deriving Repr, DecidableEq

def CRes.bind {α β : Type} : CRes α → (α → CRes β) → CRes β
  | .ok a, f => f a
  | .err m, _ => .err m
  | .crash, _ => .crash

instance : Monad CRes where
  pure := CRes.ok
  bind := CRes.bind

/-- Map over the ok value of a CRes. -/
def CRes.rmap {α β : Type} (f : α → β) : CRes α → CRes β
  | .ok a => .ok (f a)
  | .err m => .err m
  | .crash => .crash

/-! Timestamp sentinels, from the host datetime headers: DT_NOBEGIN and
DT_NOEND are INT64_MIN and INT64_MAX, and a timestamp is finite when it is
neither. -/

def DT_NOBEGIN : Int := -(2 ^ 63)

def DT_NOEND : Int := 2 ^ 63 - 1

def TIMESTAMP_NOT_FINITE (t : Int) : Prop := t = DT_NOBEGIN ∨ t = DT_NOEND

instance (t : Int) : Decidable (TIMESTAMP_NOT_FINITE t) := by
  unfold TIMESTAMP_NOT_FINITE; infer_instance

/-- The stored value: 8-byte UTC microsecond instant plus 2-byte zone id
(struct TimestampAndTz in timestampandtz.c). -/
structure TimestampAndTz where
  time : Int
  tz : Int
deriving Repr, DecidableEq

/-! Comparison operators, transcribed from timestampandtz.c lines 278 to 324
and 402 to 414.  Note that timestampandtz_gt returns (left.time < right.time)
in the source, exactly as transcribed here. -/

def timestampandtz_eq (l r : TimestampAndTz) : Bool := l.time == r.time

def timestampandtz_ne (l r : TimestampAndTz) : Bool := l.time != r.time

def timestampandtz_le (l r : TimestampAndTz) : Bool := decide (l.time ≤ r.time)

def timestampandtz_lt (l r : TimestampAndTz) : Bool := decide (l.time < r.time)

def timestampandtz_ge (l r : TimestampAndTz) : Bool := decide (l.time ≥ r.time)

def timestampandtz_gt (l r : TimestampAndTz) : Bool := decide (l.time < r.time)

def timestampandtz_cmp (l r : TimestampAndTz) : Int :=
  if l.time > r.time then 1 else if l.time < r.time then -1 else 0

/-- C1 (code_bug evidence): the comparison family is determined by the UTC
instants alone, and eq, ne, lt, le, ge and cmp behave as the claim states,
but timestampandtz_gt is flipped: at a = (0, 567), b = (1, 572) we have
a.time < b.time, yet gt a b returns true while the claim requires
gt a b = (a.time > b.time) = false.  The same two instants under cmp give -1,
so gt even contradicts the btree comparator registered alongside it. -/
theorem timestampandtz_gt_flipped_eval :
    (∀ a b : TimestampAndTz,
      timestampandtz_eq a b = decide (a.time = b.time) ∧
      timestampandtz_ne a b = decide (a.time ≠ b.time) ∧
      timestampandtz_lt a b = decide (a.time < b.time) ∧
      timestampandtz_le a b = decide (a.time ≤ b.time) ∧
      timestampandtz_ge a b = decide (a.time ≥ b.time) ∧
      timestampandtz_cmp a b =
        (if a.time > b.time then 1 else if a.time < b.time then -1 else 0)) ∧
    timestampandtz_gt ⟨0, 567⟩ ⟨1, 572⟩ = true ∧
    ((0 : Int) > 1) = False ∧
    timestampandtz_cmp ⟨0, 567⟩ ⟨1, 572⟩ = -1 := by
  refine ⟨fun a b => ?_, by decide, by simp, by decide⟩
  refine ⟨?_, ?_, rfl, ?_, ?_, rfl⟩
  · by_cases h : a.time = b.time <;> simp [timestampandtz_eq, h]
  · by_cases h : a.time = b.time <;> simp [timestampandtz_ne, bne, h]
  · simp [timestampandtz_le, timestampandtz_lt]
  · simp [timestampandtz_ge]

/-! Zone catalog, from timestampandtz.c lines 522 to 1147: the struct
timezone_to_id table and the two lookup functions.  Strings are compared as
C byte strings; all catalog names are ASCII. -/

/-- One catalog row: struct timezone_to_id with fields name, nameupper, id. -/
structure ZoneEntry where
  name : String
  nameupper : String
  id : Int
deriving Repr, DecidableEq

/-- Row constructor, to keep the table literal compact. -/
def mkZ (n u : String) (i : Int) : ZoneEntry := ⟨n, u, i⟩

/-- The static timezones array, transcribed entry for entry. -/
def timezones : List ZoneEntry := [
  mkZ "Africa/Abidjan" "AFRICA/ABIDJAN" 1,
  mkZ "Africa/Accra" "AFRICA/ACCRA" 2,
  mkZ "Africa/Addis_Ababa" "AFRICA/ADDIS_ABABA" 3,
  mkZ "Africa/Algiers" "AFRICA/ALGIERS" 4,
  mkZ "Africa/Asmara" "AFRICA/ASMARA" 5,
  mkZ "Africa/Asmera" "AFRICA/ASMERA" 6,
  mkZ "Africa/Bamako" "AFRICA/BAMAKO" 7,
  mkZ "Africa/Bangui" "AFRICA/BANGUI" 8,
  mkZ "Africa/Banjul" "AFRICA/BANJUL" 9,
  mkZ "Africa/Bissau" "AFRICA/BISSAU" 10,
  mkZ "Africa/Blantyre" "AFRICA/BLANTYRE" 11,
  mkZ "Africa/Brazzaville" "AFRICA/BRAZZAVILLE" 12,
  mkZ "Africa/Bujumbura" "AFRICA/BUJUMBURA" 13,
  mkZ "Africa/Cairo" "AFRICA/CAIRO" 14,
  mkZ "Africa/Casablanca" "AFRICA/CASABLANCA" 15,
  mkZ "Africa/Ceuta" "AFRICA/CEUTA" 16,
  mkZ "Africa/Conakry" "AFRICA/CONAKRY" 17,
  mkZ "Africa/Dakar" "AFRICA/DAKAR" 18,
  mkZ "Africa/Dar_es_Salaam" "AFRICA/DAR_ES_SALAAM" 19,
  mkZ "Africa/Djibouti" "AFRICA/DJIBOUTI" 20,
  mkZ "Africa/Douala" "AFRICA/DOUALA" 21,
  mkZ "Africa/El_Aaiun" "AFRICA/EL_AAIUN" 22,
  mkZ "Africa/Freetown" "AFRICA/FREETOWN" 23,
  mkZ "Africa/Gaborone" "AFRICA/GABORONE" 24,
  mkZ "Africa/Harare" "AFRICA/HARARE" 25,
  mkZ "Africa/Johannesburg" "AFRICA/JOHANNESBURG" 26,
  mkZ "Africa/Juba" "AFRICA/JUBA" 27,
  mkZ "Africa/Kampala" "AFRICA/KAMPALA" 28,
  mkZ "Africa/Khartoum" "AFRICA/KHARTOUM" 29,
  mkZ "Africa/Kigali" "AFRICA/KIGALI" 30,
  mkZ "Africa/Kinshasa" "AFRICA/KINSHASA" 31,
  mkZ "Africa/Lagos" "AFRICA/LAGOS" 32,
  mkZ "Africa/Libreville" "AFRICA/LIBREVILLE" 33,
  mkZ "Africa/Lome" "AFRICA/LOME" 34,
  mkZ "Africa/Luanda" "AFRICA/LUANDA" 35,
  mkZ "Africa/Lubumbashi" "AFRICA/LUBUMBASHI" 36,
  mkZ "Africa/Lusaka" "AFRICA/LUSAKA" 37,
  mkZ "Africa/Malabo" "AFRICA/MALABO" 38,
  mkZ "Africa/Maputo" "AFRICA/MAPUTO" 39,
  mkZ "Africa/Maseru" "AFRICA/MASERU" 40,
  mkZ "Africa/Mbabane" "AFRICA/MBABANE" 41,
  mkZ "Africa/Mogadishu" "AFRICA/MOGADISHU" 42,
  mkZ "Africa/Monrovia" "AFRICA/MONROVIA" 43,
  mkZ "Africa/Nairobi" "AFRICA/NAIROBI" 44,
  mkZ "Africa/Ndjamena" "AFRICA/NDJAMENA" 45,
  mkZ "Africa/Niamey" "AFRICA/NIAMEY" 46,
  mkZ "Africa/Nouakchott" "AFRICA/NOUAKCHOTT" 47,
  mkZ "Africa/Ouagadougou" "AFRICA/OUAGADOUGOU" 48,
  mkZ "Africa/Porto-Novo" "AFRICA/PORTO-NOVO" 49,
  mkZ "Africa/Sao_Tome" "AFRICA/SAO_TOME" 50,
  mkZ "Africa/Timbuktu" "AFRICA/TIMBUKTU" 51,
  mkZ "Africa/Tripoli" "AFRICA/TRIPOLI" 52,
  mkZ "Africa/Tunis" "AFRICA/TUNIS" 53,
  mkZ "Africa/Windhoek" "AFRICA/WINDHOEK" 54,
  mkZ "America/Adak" "AMERICA/ADAK" 55,
  mkZ "America/Anchorage" "AMERICA/ANCHORAGE" 56,
  mkZ "America/Anguilla" "AMERICA/ANGUILLA" 57,
  mkZ "America/Antigua" "AMERICA/ANTIGUA" 58,
  mkZ "America/Araguaina" "AMERICA/ARAGUAINA" 59,
  mkZ "America/Argentina/Buenos_Aires" "AMERICA/ARGENTINA/BUENOS_AIRES" 60,
  mkZ "America/Argentina/Catamarca" "AMERICA/ARGENTINA/CATAMARCA" 61,
  mkZ "America/Argentina/ComodRivadavia" "AMERICA/ARGENTINA/COMODRIVADAVIA" 62,
  mkZ "America/Argentina/Cordoba" "AMERICA/ARGENTINA/CORDOBA" 63,
  mkZ "America/Argentina/Jujuy" "AMERICA/ARGENTINA/JUJUY" 64,
  mkZ "America/Argentina/La_Rioja" "AMERICA/ARGENTINA/LA_RIOJA" 65,
  mkZ "America/Argentina/Mendoza" "AMERICA/ARGENTINA/MENDOZA" 66,
  mkZ "America/Argentina/Rio_Gallegos" "AMERICA/ARGENTINA/RIO_GALLEGOS" 67,
  mkZ "America/Argentina/Salta" "AMERICA/ARGENTINA/SALTA" 68,
  mkZ "America/Argentina/San_Juan" "AMERICA/ARGENTINA/SAN_JUAN" 69,
  mkZ "America/Argentina/San_Luis" "AMERICA/ARGENTINA/SAN_LUIS" 70,
  mkZ "America/Argentina/Tucuman" "AMERICA/ARGENTINA/TUCUMAN" 71,
  mkZ "America/Argentina/Ushuaia" "AMERICA/ARGENTINA/USHUAIA" 72,
  mkZ "America/Aruba" "AMERICA/ARUBA" 73,
  mkZ "America/Asuncion" "AMERICA/ASUNCION" 74,
  mkZ "America/Atikokan" "AMERICA/ATIKOKAN" 75,
  mkZ "America/Atka" "AMERICA/ATKA" 76,
  mkZ "America/Bahia" "AMERICA/BAHIA" 77,
  mkZ "America/Bahia_Banderas" "AMERICA/BAHIA_BANDERAS" 78,
  mkZ "America/Barbados" "AMERICA/BARBADOS" 79,
  mkZ "America/Belem" "AMERICA/BELEM" 80,
  mkZ "America/Belize" "AMERICA/BELIZE" 81,
  mkZ "America/Blanc-Sablon" "AMERICA/BLANC-SABLON" 82,
  mkZ "America/Boa_Vista" "AMERICA/BOA_VISTA" 83,
  mkZ "America/Bogota" "AMERICA/BOGOTA" 84,
  mkZ "America/Boise" "AMERICA/BOISE" 85,
  mkZ "America/Buenos_Aires" "AMERICA/BUENOS_AIRES" 86,
  mkZ "America/Cambridge_Bay" "AMERICA/CAMBRIDGE_BAY" 87,
  mkZ "America/Campo_Grande" "AMERICA/CAMPO_GRANDE" 88,
  mkZ "America/Cancun" "AMERICA/CANCUN" 89,
  mkZ "America/Caracas" "AMERICA/CARACAS" 90,
  mkZ "America/Catamarca" "AMERICA/CATAMARCA" 91,
  mkZ "America/Cayenne" "AMERICA/CAYENNE" 92,
  mkZ "America/Cayman" "AMERICA/CAYMAN" 93,
  mkZ "America/Chicago" "AMERICA/CHICAGO" 94,
  mkZ "America/Chihuahua" "AMERICA/CHIHUAHUA" 95,
  mkZ "America/Coral_Harbour" "AMERICA/CORAL_HARBOUR" 96,
  mkZ "America/Cordoba" "AMERICA/CORDOBA" 97,
  mkZ "America/Costa_Rica" "AMERICA/COSTA_RICA" 98,
  mkZ "America/Creston" "AMERICA/CRESTON" 99,
  mkZ "America/Cuiaba" "AMERICA/CUIABA" 100,
  mkZ "America/Curacao" "AMERICA/CURACAO" 101,
  mkZ "America/Danmarkshavn" "AMERICA/DANMARKSHAVN" 102,
  mkZ "America/Dawson" "AMERICA/DAWSON" 103,
  mkZ "America/Dawson_Creek" "AMERICA/DAWSON_CREEK" 104,
  mkZ "America/Denver" "AMERICA/DENVER" 105,
  mkZ "America/Detroit" "AMERICA/DETROIT" 106,
  mkZ "America/Dominica" "AMERICA/DOMINICA" 107,
  mkZ "America/Edmonton" "AMERICA/EDMONTON" 108,
  mkZ "America/Eirunepe" "AMERICA/EIRUNEPE" 109,
  mkZ "America/El_Salvador" "AMERICA/EL_SALVADOR" 110,
  mkZ "America/Ensenada" "AMERICA/ENSENADA" 111,
  mkZ "America/Fort_Wayne" "AMERICA/FORT_WAYNE" 112,
  mkZ "America/Fortaleza" "AMERICA/FORTALEZA" 113,
  mkZ "America/Glace_Bay" "AMERICA/GLACE_BAY" 114,
  mkZ "America/Godthab" "AMERICA/GODTHAB" 115,
  mkZ "America/Goose_Bay" "AMERICA/GOOSE_BAY" 116,
  mkZ "America/Grand_Turk" "AMERICA/GRAND_TURK" 117,
  mkZ "America/Grenada" "AMERICA/GRENADA" 118,
  mkZ "America/Guadeloupe" "AMERICA/GUADELOUPE" 119,
  mkZ "America/Guatemala" "AMERICA/GUATEMALA" 120,
  mkZ "America/Guayaquil" "AMERICA/GUAYAQUIL" 121,
  mkZ "America/Guyana" "AMERICA/GUYANA" 122,
  mkZ "America/Halifax" "AMERICA/HALIFAX" 123,
  mkZ "America/Havana" "AMERICA/HAVANA" 124,
  mkZ "America/Hermosillo" "AMERICA/HERMOSILLO" 125,
  mkZ "America/Indiana/Indianapolis" "AMERICA/INDIANA/INDIANAPOLIS" 126,
  mkZ "America/Indiana/Knox" "AMERICA/INDIANA/KNOX" 127,
  mkZ "America/Indiana/Marengo" "AMERICA/INDIANA/MARENGO" 128,
  mkZ "America/Indiana/Petersburg" "AMERICA/INDIANA/PETERSBURG" 129,
  mkZ "America/Indiana/Tell_City" "AMERICA/INDIANA/TELL_CITY" 130,
  mkZ "America/Indiana/Vevay" "AMERICA/INDIANA/VEVAY" 131,
  mkZ "America/Indiana/Vincennes" "AMERICA/INDIANA/VINCENNES" 132,
  mkZ "America/Indiana/Winamac" "AMERICA/INDIANA/WINAMAC" 133,
  mkZ "America/Indianapolis" "AMERICA/INDIANAPOLIS" 134,
  mkZ "America/Inuvik" "AMERICA/INUVIK" 135,
  mkZ "America/Iqaluit" "AMERICA/IQALUIT" 136,
  mkZ "America/Jamaica" "AMERICA/JAMAICA" 137,
  mkZ "America/Jujuy" "AMERICA/JUJUY" 138,
  mkZ "America/Juneau" "AMERICA/JUNEAU" 139,
  mkZ "America/Kentucky/Louisville" "AMERICA/KENTUCKY/LOUISVILLE" 140,
  mkZ "America/Kentucky/Monticello" "AMERICA/KENTUCKY/MONTICELLO" 141,
  mkZ "America/Knox_IN" "AMERICA/KNOX_IN" 142,
  mkZ "America/Kralendijk" "AMERICA/KRALENDIJK" 143,
  mkZ "America/La_Paz" "AMERICA/LA_PAZ" 144,
  mkZ "America/Lima" "AMERICA/LIMA" 145,
  mkZ "America/Los_Angeles" "AMERICA/LOS_ANGELES" 146,
  mkZ "America/Louisville" "AMERICA/LOUISVILLE" 147,
  mkZ "America/Lower_Princes" "AMERICA/LOWER_PRINCES" 148,
  mkZ "America/Maceio" "AMERICA/MACEIO" 149,
  mkZ "America/Managua" "AMERICA/MANAGUA" 150,
  mkZ "America/Manaus" "AMERICA/MANAUS" 151,
  mkZ "America/Marigot" "AMERICA/MARIGOT" 152,
  mkZ "America/Martinique" "AMERICA/MARTINIQUE" 153,
  mkZ "America/Matamoros" "AMERICA/MATAMOROS" 154,
  mkZ "America/Mazatlan" "AMERICA/MAZATLAN" 155,
  mkZ "America/Mendoza" "AMERICA/MENDOZA" 156,
  mkZ "America/Menominee" "AMERICA/MENOMINEE" 157,
  mkZ "America/Merida" "AMERICA/MERIDA" 158,
  mkZ "America/Metlakatla" "AMERICA/METLAKATLA" 159,
  mkZ "America/Mexico_City" "AMERICA/MEXICO_CITY" 160,
  mkZ "America/Miquelon" "AMERICA/MIQUELON" 161,
  mkZ "America/Moncton" "AMERICA/MONCTON" 162,
  mkZ "America/Monterrey" "AMERICA/MONTERREY" 163,
  mkZ "America/Montevideo" "AMERICA/MONTEVIDEO" 164,
  mkZ "America/Montreal" "AMERICA/MONTREAL" 165,
  mkZ "America/Montserrat" "AMERICA/MONTSERRAT" 166,
  mkZ "America/Nassau" "AMERICA/NASSAU" 167,
  mkZ "America/New_York" "AMERICA/NEW_YORK" 168,
  mkZ "America/Nipigon" "AMERICA/NIPIGON" 169,
  mkZ "America/Nome" "AMERICA/NOME" 170,
  mkZ "America/Noronha" "AMERICA/NORONHA" 171,
  mkZ "America/North_Dakota/Beulah" "AMERICA/NORTH_DAKOTA/BEULAH" 172,
  mkZ "America/North_Dakota/Center" "AMERICA/NORTH_DAKOTA/CENTER" 173,
  mkZ "America/North_Dakota/New_Salem" "AMERICA/NORTH_DAKOTA/NEW_SALEM" 174,
  mkZ "America/Ojinaga" "AMERICA/OJINAGA" 175,
  mkZ "America/Panama" "AMERICA/PANAMA" 176,
  mkZ "America/Pangnirtung" "AMERICA/PANGNIRTUNG" 177,
  mkZ "America/Paramaribo" "AMERICA/PARAMARIBO" 178,
  mkZ "America/Phoenix" "AMERICA/PHOENIX" 179,
  mkZ "America/Port-au-Prince" "AMERICA/PORT-AU-PRINCE" 180,
  mkZ "America/Port_of_Spain" "AMERICA/PORT_OF_SPAIN" 181,
  mkZ "America/Porto_Acre" "AMERICA/PORTO_ACRE" 182,
  mkZ "America/Porto_Velho" "AMERICA/PORTO_VELHO" 183,
  mkZ "America/Puerto_Rico" "AMERICA/PUERTO_RICO" 184,
  mkZ "America/Rainy_River" "AMERICA/RAINY_RIVER" 185,
  mkZ "America/Rankin_Inlet" "AMERICA/RANKIN_INLET" 186,
  mkZ "America/Recife" "AMERICA/RECIFE" 187,
  mkZ "America/Regina" "AMERICA/REGINA" 188,
  mkZ "America/Resolute" "AMERICA/RESOLUTE" 189,
  mkZ "America/Rio_Branco" "AMERICA/RIO_BRANCO" 190,
  mkZ "America/Rosario" "AMERICA/ROSARIO" 191,
  mkZ "America/Santa_Isabel" "AMERICA/SANTA_ISABEL" 192,
  mkZ "America/Santarem" "AMERICA/SANTAREM" 193,
  mkZ "America/Santiago" "AMERICA/SANTIAGO" 194,
  mkZ "America/Santo_Domingo" "AMERICA/SANTO_DOMINGO" 195,
  mkZ "America/Sao_Paulo" "AMERICA/SAO_PAULO" 196,
  mkZ "America/Scoresbysund" "AMERICA/SCORESBYSUND" 197,
  mkZ "America/Shiprock" "AMERICA/SHIPROCK" 198,
  mkZ "America/Sitka" "AMERICA/SITKA" 199,
  mkZ "America/St_Barthelemy" "AMERICA/ST_BARTHELEMY" 200,
  mkZ "America/St_Johns" "AMERICA/ST_JOHNS" 201,
  mkZ "America/St_Kitts" "AMERICA/ST_KITTS" 202,
  mkZ "America/St_Lucia" "AMERICA/ST_LUCIA" 203,
  mkZ "America/St_Thomas" "AMERICA/ST_THOMAS" 204,
  mkZ "America/St_Vincent" "AMERICA/ST_VINCENT" 205,
  mkZ "America/Swift_Current" "AMERICA/SWIFT_CURRENT" 206,
  mkZ "America/Tegucigalpa" "AMERICA/TEGUCIGALPA" 207,
  mkZ "America/Thule" "AMERICA/THULE" 208,
  mkZ "America/Thunder_Bay" "AMERICA/THUNDER_BAY" 209,
  mkZ "America/Tijuana" "AMERICA/TIJUANA" 210,
  mkZ "America/Toronto" "AMERICA/TORONTO" 211,
  mkZ "America/Tortola" "AMERICA/TORTOLA" 212,
  mkZ "America/Vancouver" "AMERICA/VANCOUVER" 213,
  mkZ "America/Virgin" "AMERICA/VIRGIN" 214,
  mkZ "America/Whitehorse" "AMERICA/WHITEHORSE" 215,
  mkZ "America/Winnipeg" "AMERICA/WINNIPEG" 216,
  mkZ "America/Yakutat" "AMERICA/YAKUTAT" 217,
  mkZ "America/Yellowknife" "AMERICA/YELLOWKNIFE" 218,
  mkZ "Antarctica/Casey" "ANTARCTICA/CASEY" 219,
  mkZ "Antarctica/Davis" "ANTARCTICA/DAVIS" 220,
  mkZ "Antarctica/DumontDUrville" "ANTARCTICA/DUMONTDURVILLE" 221,
  mkZ "Antarctica/Macquarie" "ANTARCTICA/MACQUARIE" 222,
  mkZ "Antarctica/Mawson" "ANTARCTICA/MAWSON" 223,
  mkZ "Antarctica/McMurdo" "ANTARCTICA/MCMURDO" 224,
  mkZ "Antarctica/Palmer" "ANTARCTICA/PALMER" 225,
  mkZ "Antarctica/Rothera" "ANTARCTICA/ROTHERA" 226,
  mkZ "Antarctica/South_Pole" "ANTARCTICA/SOUTH_POLE" 227,
  mkZ "Antarctica/Syowa" "ANTARCTICA/SYOWA" 228,
  mkZ "Antarctica/Troll" "ANTARCTICA/TROLL" 229,
  mkZ "Antarctica/Vostok" "ANTARCTICA/VOSTOK" 230,
  mkZ "Arctic/Longyearbyen" "ARCTIC/LONGYEARBYEN" 231,
  mkZ "Asia/Aden" "ASIA/ADEN" 232,
  mkZ "Asia/Almaty" "ASIA/ALMATY" 233,
  mkZ "Asia/Amman" "ASIA/AMMAN" 234,
  mkZ "Asia/Anadyr" "ASIA/ANADYR" 235,
  mkZ "Asia/Aqtau" "ASIA/AQTAU" 236,
  mkZ "Asia/Aqtobe" "ASIA/AQTOBE" 237,
  mkZ "Asia/Ashgabat" "ASIA/ASHGABAT" 238,
  mkZ "Asia/Ashkhabad" "ASIA/ASHKHABAD" 239,
  mkZ "Asia/Baghdad" "ASIA/BAGHDAD" 240,
  mkZ "Asia/Bahrain" "ASIA/BAHRAIN" 241,
  mkZ "Asia/Baku" "ASIA/BAKU" 242,
  mkZ "Asia/Bangkok" "ASIA/BANGKOK" 243,
  mkZ "Asia/Beirut" "ASIA/BEIRUT" 244,
  mkZ "Asia/Bishkek" "ASIA/BISHKEK" 245,
  mkZ "Asia/Brunei" "ASIA/BRUNEI" 246,
  mkZ "Asia/Calcutta" "ASIA/CALCUTTA" 247,
  mkZ "Asia/Choibalsan" "ASIA/CHOIBALSAN" 248,
  mkZ "Asia/Chongqing" "ASIA/CHONGQING" 249,
  mkZ "Asia/Chungking" "ASIA/CHUNGKING" 250,
  mkZ "Asia/Colombo" "ASIA/COLOMBO" 251,
  mkZ "Asia/Dacca" "ASIA/DACCA" 252,
  mkZ "Asia/Damascus" "ASIA/DAMASCUS" 253,
  mkZ "Asia/Dhaka" "ASIA/DHAKA" 254,
  mkZ "Asia/Dili" "ASIA/DILI" 255,
  mkZ "Asia/Dubai" "ASIA/DUBAI" 256,
  mkZ "Asia/Dushanbe" "ASIA/DUSHANBE" 257,
  mkZ "Asia/Gaza" "ASIA/GAZA" 258,
  mkZ "Asia/Harbin" "ASIA/HARBIN" 259,
  mkZ "Asia/Hebron" "ASIA/HEBRON" 260,
  mkZ "Asia/Ho_Chi_Minh" "ASIA/HO_CHI_MINH" 261,
  mkZ "Asia/Hong_Kong" "ASIA/HONG_KONG" 262,
  mkZ "Asia/Hovd" "ASIA/HOVD" 263,
  mkZ "Asia/Irkutsk" "ASIA/IRKUTSK" 264,
  mkZ "Asia/Istanbul" "ASIA/ISTANBUL" 265,
  mkZ "Asia/Jakarta" "ASIA/JAKARTA" 266,
  mkZ "Asia/Jayapura" "ASIA/JAYAPURA" 267,
  mkZ "Asia/Jerusalem" "ASIA/JERUSALEM" 268,
  mkZ "Asia/Kabul" "ASIA/KABUL" 269,
  mkZ "Asia/Kamchatka" "ASIA/KAMCHATKA" 270,
  mkZ "Asia/Karachi" "ASIA/KARACHI" 271,
  mkZ "Asia/Kashgar" "ASIA/KASHGAR" 272,
  mkZ "Asia/Kathmandu" "ASIA/KATHMANDU" 273,
  mkZ "Asia/Katmandu" "ASIA/KATMANDU" 274,
  mkZ "Asia/Khandyga" "ASIA/KHANDYGA" 275,
  mkZ "Asia/Kolkata" "ASIA/KOLKATA" 276,
  mkZ "Asia/Krasnoyarsk" "ASIA/KRASNOYARSK" 277,
  mkZ "Asia/Kuala_Lumpur" "ASIA/KUALA_LUMPUR" 278,
  mkZ "Asia/Kuching" "ASIA/KUCHING" 279,
  mkZ "Asia/Kuwait" "ASIA/KUWAIT" 280,
  mkZ "Asia/Macao" "ASIA/MACAO" 281,
  mkZ "Asia/Macau" "ASIA/MACAU" 282,
  mkZ "Asia/Magadan" "ASIA/MAGADAN" 283,
  mkZ "Asia/Makassar" "ASIA/MAKASSAR" 284,
  mkZ "Asia/Manila" "ASIA/MANILA" 285,
  mkZ "Asia/Muscat" "ASIA/MUSCAT" 286,
  mkZ "Asia/Nicosia" "ASIA/NICOSIA" 287,
  mkZ "Asia/Novokuznetsk" "ASIA/NOVOKUZNETSK" 288,
  mkZ "Asia/Novosibirsk" "ASIA/NOVOSIBIRSK" 289,
  mkZ "Asia/Omsk" "ASIA/OMSK" 290,
  mkZ "Asia/Oral" "ASIA/ORAL" 291,
  mkZ "Asia/Phnom_Penh" "ASIA/PHNOM_PENH" 292,
  mkZ "Asia/Pontianak" "ASIA/PONTIANAK" 293,
  mkZ "Asia/Pyongyang" "ASIA/PYONGYANG" 294,
  mkZ "Asia/Qatar" "ASIA/QATAR" 295,
  mkZ "Asia/Qyzylorda" "ASIA/QYZYLORDA" 296,
  mkZ "Asia/Rangoon" "ASIA/RANGOON" 297,
  mkZ "Asia/Riyadh" "ASIA/RIYADH" 298,
  mkZ "Asia/Saigon" "ASIA/SAIGON" 299,
  mkZ "Asia/Sakhalin" "ASIA/SAKHALIN" 300,
  mkZ "Asia/Samarkand" "ASIA/SAMARKAND" 301,
  mkZ "Asia/Seoul" "ASIA/SEOUL" 302,
  mkZ "Asia/Shanghai" "ASIA/SHANGHAI" 303,
  mkZ "Asia/Singapore" "ASIA/SINGAPORE" 304,
  mkZ "Asia/Taipei" "ASIA/TAIPEI" 305,
  mkZ "Asia/Tashkent" "ASIA/TASHKENT" 306,
  mkZ "Asia/Tbilisi" "ASIA/TBILISI" 307,
  mkZ "Asia/Tehran" "ASIA/TEHRAN" 308,
  mkZ "Asia/Tel_Aviv" "ASIA/TEL_AVIV" 309,
  mkZ "Asia/Thimbu" "ASIA/THIMBU" 310,
  mkZ "Asia/Thimphu" "ASIA/THIMPHU" 311,
  mkZ "Asia/Tokyo" "ASIA/TOKYO" 312,
  mkZ "Asia/Ujung_Pandang" "ASIA/UJUNG_PANDANG" 313,
  mkZ "Asia/Ulaanbaatar" "ASIA/ULAANBAATAR" 314,
  mkZ "Asia/Ulan_Bator" "ASIA/ULAN_BATOR" 315,
  mkZ "Asia/Urumqi" "ASIA/URUMQI" 316,
  mkZ "Asia/Ust-Nera" "ASIA/UST-NERA" 317,
  mkZ "Asia/Vientiane" "ASIA/VIENTIANE" 318,
  mkZ "Asia/Vladivostok" "ASIA/VLADIVOSTOK" 319,
  mkZ "Asia/Yakutsk" "ASIA/YAKUTSK" 320,
  mkZ "Asia/Yekaterinburg" "ASIA/YEKATERINBURG" 321,
  mkZ "Asia/Yerevan" "ASIA/YEREVAN" 322,
  mkZ "Atlantic/Azores" "ATLANTIC/AZORES" 323,
  mkZ "Atlantic/Bermuda" "ATLANTIC/BERMUDA" 324,
  mkZ "Atlantic/Canary" "ATLANTIC/CANARY" 325,
  mkZ "Atlantic/Cape_Verde" "ATLANTIC/CAPE_VERDE" 326,
  mkZ "Atlantic/Faeroe" "ATLANTIC/FAEROE" 327,
  mkZ "Atlantic/Faroe" "ATLANTIC/FAROE" 328,
  mkZ "Atlantic/Jan_Mayen" "ATLANTIC/JAN_MAYEN" 329,
  mkZ "Atlantic/Madeira" "ATLANTIC/MADEIRA" 330,
  mkZ "Atlantic/Reykjavik" "ATLANTIC/REYKJAVIK" 331,
  mkZ "Atlantic/South_Georgia" "ATLANTIC/SOUTH_GEORGIA" 332,
  mkZ "Atlantic/St_Helena" "ATLANTIC/ST_HELENA" 333,
  mkZ "Atlantic/Stanley" "ATLANTIC/STANLEY" 334,
  mkZ "Australia/ACT" "AUSTRALIA/ACT" 335,
  mkZ "Australia/Adelaide" "AUSTRALIA/ADELAIDE" 336,
  mkZ "Australia/Brisbane" "AUSTRALIA/BRISBANE" 337,
  mkZ "Australia/Broken_Hill" "AUSTRALIA/BROKEN_HILL" 338,
  mkZ "Australia/Canberra" "AUSTRALIA/CANBERRA" 339,
  mkZ "Australia/Currie" "AUSTRALIA/CURRIE" 340,
  mkZ "Australia/Darwin" "AUSTRALIA/DARWIN" 341,
  mkZ "Australia/Eucla" "AUSTRALIA/EUCLA" 342,
  mkZ "Australia/Hobart" "AUSTRALIA/HOBART" 343,
  mkZ "Australia/LHI" "AUSTRALIA/LHI" 344,
  mkZ "Australia/Lindeman" "AUSTRALIA/LINDEMAN" 345,
  mkZ "Australia/Lord_Howe" "AUSTRALIA/LORD_HOWE" 346,
  mkZ "Australia/Melbourne" "AUSTRALIA/MELBOURNE" 347,
  mkZ "Australia/NSW" "AUSTRALIA/NSW" 348,
  mkZ "Australia/North" "AUSTRALIA/NORTH" 349,
  mkZ "Australia/Perth" "AUSTRALIA/PERTH" 350,
  mkZ "Australia/Queensland" "AUSTRALIA/QUEENSLAND" 351,
  mkZ "Australia/South" "AUSTRALIA/SOUTH" 352,
  mkZ "Australia/Sydney" "AUSTRALIA/SYDNEY" 353,
  mkZ "Australia/Tasmania" "AUSTRALIA/TASMANIA" 354,
  mkZ "Australia/Victoria" "AUSTRALIA/VICTORIA" 355,
  mkZ "Australia/West" "AUSTRALIA/WEST" 356,
  mkZ "Australia/Yancowinna" "AUSTRALIA/YANCOWINNA" 357,
  mkZ "Brazil/Acre" "BRAZIL/ACRE" 358,
  mkZ "Brazil/DeNoronha" "BRAZIL/DENORONHA" 359,
  mkZ "Brazil/East" "BRAZIL/EAST" 360,
  mkZ "Brazil/West" "BRAZIL/WEST" 361,
  mkZ "CET" "CET" 362,
  mkZ "CST6CDT" "CST6CDT" 363,
  mkZ "Canada/Atlantic" "CANADA/ATLANTIC" 364,
  mkZ "Canada/Central" "CANADA/CENTRAL" 365,
  mkZ "Canada/East-Saskatchewan" "CANADA/EAST-SASKATCHEWAN" 366,
  mkZ "Canada/Eastern" "CANADA/EASTERN" 367,
  mkZ "Canada/Mountain" "CANADA/MOUNTAIN" 368,
  mkZ "Canada/Newfoundland" "CANADA/NEWFOUNDLAND" 369,
  mkZ "Canada/Pacific" "CANADA/PACIFIC" 370,
  mkZ "Canada/Saskatchewan" "CANADA/SASKATCHEWAN" 371,
  mkZ "Canada/Yukon" "CANADA/YUKON" 372,
  mkZ "Chile/Continental" "CHILE/CONTINENTAL" 373,
  mkZ "Chile/EasterIsland" "CHILE/EASTERISLAND" 374,
  mkZ "Cuba" "CUBA" 375,
  mkZ "EET" "EET" 376,
  mkZ "EST" "EST" 377,
  mkZ "EST5EDT" "EST5EDT" 378,
  mkZ "Egypt" "EGYPT" 379,
  mkZ "Eire" "EIRE" 380,
  mkZ "Etc/GMT" "ETC/GMT" 381,
  mkZ "Etc/GMT+0" "ETC/GMT+0" 382,
  mkZ "Etc/GMT+1" "ETC/GMT+1" 383,
  mkZ "Etc/GMT+10" "ETC/GMT+10" 384,
  mkZ "Etc/GMT+11" "ETC/GMT+11" 385,
  mkZ "Etc/GMT+12" "ETC/GMT+12" 386,
  mkZ "Etc/GMT+2" "ETC/GMT+2" 387,
  mkZ "Etc/GMT+3" "ETC/GMT+3" 388,
  mkZ "Etc/GMT+4" "ETC/GMT+4" 389,
  mkZ "Etc/GMT+5" "ETC/GMT+5" 390,
  mkZ "Etc/GMT+6" "ETC/GMT+6" 391,
  mkZ "Etc/GMT+7" "ETC/GMT+7" 392,
  mkZ "Etc/GMT+8" "ETC/GMT+8" 393,
  mkZ "Etc/GMT+9" "ETC/GMT+9" 394,
  mkZ "Etc/GMT-0" "ETC/GMT-0" 395,
  mkZ "Etc/GMT-1" "ETC/GMT-1" 396,
  mkZ "Etc/GMT-10" "ETC/GMT-10" 397,
  mkZ "Etc/GMT-11" "ETC/GMT-11" 398,
  mkZ "Etc/GMT-12" "ETC/GMT-12" 399,
  mkZ "Etc/GMT-13" "ETC/GMT-13" 400,
  mkZ "Etc/GMT-14" "ETC/GMT-14" 401,
  mkZ "Etc/GMT-2" "ETC/GMT-2" 402,
  mkZ "Etc/GMT-3" "ETC/GMT-3" 403,
  mkZ "Etc/GMT-4" "ETC/GMT-4" 404,
  mkZ "Etc/GMT-5" "ETC/GMT-5" 405,
  mkZ "Etc/GMT-6" "ETC/GMT-6" 406,
  mkZ "Etc/GMT-7" "ETC/GMT-7" 407,
  mkZ "Etc/GMT-8" "ETC/GMT-8" 408,
  mkZ "Etc/GMT-9" "ETC/GMT-9" 409,
  mkZ "Etc/GMT0" "ETC/GMT0" 410,
  mkZ "Etc/Greenwich" "ETC/GREENWICH" 411,
  mkZ "Etc/UCT" "ETC/UCT" 412,
  mkZ "Etc/UTC" "ETC/UTC" 413,
  mkZ "Etc/Universal" "ETC/UNIVERSAL" 414,
  mkZ "Etc/Zulu" "ETC/ZULU" 415,
  mkZ "Europe/Amsterdam" "EUROPE/AMSTERDAM" 416,
  mkZ "Europe/Andorra" "EUROPE/ANDORRA" 417,
  mkZ "Europe/Athens" "EUROPE/ATHENS" 418,
  mkZ "Europe/Belfast" "EUROPE/BELFAST" 419,
  mkZ "Europe/Belgrade" "EUROPE/BELGRADE" 420,
  mkZ "Europe/Berlin" "EUROPE/BERLIN" 421,
  mkZ "Europe/Bratislava" "EUROPE/BRATISLAVA" 422,
  mkZ "Europe/Brussels" "EUROPE/BRUSSELS" 423,
  mkZ "Europe/Bucharest" "EUROPE/BUCHAREST" 424,
  mkZ "Europe/Budapest" "EUROPE/BUDAPEST" 425,
  mkZ "Europe/Busingen" "EUROPE/BUSINGEN" 426,
  mkZ "Europe/Chisinau" "EUROPE/CHISINAU" 427,
  mkZ "Europe/Copenhagen" "EUROPE/COPENHAGEN" 428,
  mkZ "Europe/Dublin" "EUROPE/DUBLIN" 429,
  mkZ "Europe/Gibraltar" "EUROPE/GIBRALTAR" 430,
  mkZ "Europe/Guernsey" "EUROPE/GUERNSEY" 431,
  mkZ "Europe/Helsinki" "EUROPE/HELSINKI" 432,
  mkZ "Europe/Isle_of_Man" "EUROPE/ISLE_OF_MAN" 433,
  mkZ "Europe/Istanbul" "EUROPE/ISTANBUL" 434,
  mkZ "Europe/Jersey" "EUROPE/JERSEY" 435,
  mkZ "Europe/Kaliningrad" "EUROPE/KALININGRAD" 436,
  mkZ "Europe/Kiev" "EUROPE/KIEV" 437,
  mkZ "Europe/Lisbon" "EUROPE/LISBON" 438,
  mkZ "Europe/Ljubljana" "EUROPE/LJUBLJANA" 439,
  mkZ "Europe/London" "EUROPE/LONDON" 440,
  mkZ "Europe/Luxembourg" "EUROPE/LUXEMBOURG" 441,
  mkZ "Europe/Madrid" "EUROPE/MADRID" 442,
  mkZ "Europe/Malta" "EUROPE/MALTA" 443,
  mkZ "Europe/Mariehamn" "EUROPE/MARIEHAMN" 444,
  mkZ "Europe/Minsk" "EUROPE/MINSK" 445,
  mkZ "Europe/Monaco" "EUROPE/MONACO" 446,
  mkZ "Europe/Moscow" "EUROPE/MOSCOW" 447,
  mkZ "Europe/Nicosia" "EUROPE/NICOSIA" 448,
  mkZ "Europe/Oslo" "EUROPE/OSLO" 449,
  mkZ "Europe/Paris" "EUROPE/PARIS" 450,
  mkZ "Europe/Podgorica" "EUROPE/PODGORICA" 451,
  mkZ "Europe/Prague" "EUROPE/PRAGUE" 452,
  mkZ "Europe/Riga" "EUROPE/RIGA" 453,
  mkZ "Europe/Rome" "EUROPE/ROME" 454,
  mkZ "Europe/Samara" "EUROPE/SAMARA" 455,
  mkZ "Europe/San_Marino" "EUROPE/SAN_MARINO" 456,
  mkZ "Europe/Sarajevo" "EUROPE/SARAJEVO" 457,
  mkZ "Europe/Simferopol" "EUROPE/SIMFEROPOL" 458,
  mkZ "Europe/Skopje" "EUROPE/SKOPJE" 459,
  mkZ "Europe/Sofia" "EUROPE/SOFIA" 460,
  mkZ "Europe/Stockholm" "EUROPE/STOCKHOLM" 461,
  mkZ "Europe/Tallinn" "EUROPE/TALLINN" 462,
  mkZ "Europe/Tirane" "EUROPE/TIRANE" 463,
  mkZ "Europe/Tiraspol" "EUROPE/TIRASPOL" 464,
  mkZ "Europe/Uzhgorod" "EUROPE/UZHGOROD" 465,
  mkZ "Europe/Vaduz" "EUROPE/VADUZ" 466,
  mkZ "Europe/Vatican" "EUROPE/VATICAN" 467,
  mkZ "Europe/Vienna" "EUROPE/VIENNA" 468,
  mkZ "Europe/Vilnius" "EUROPE/VILNIUS" 469,
  mkZ "Europe/Volgograd" "EUROPE/VOLGOGRAD" 470,
  mkZ "Europe/Warsaw" "EUROPE/WARSAW" 471,
  mkZ "Europe/Zagreb" "EUROPE/ZAGREB" 472,
  mkZ "Europe/Zaporozhye" "EUROPE/ZAPOROZHYE" 473,
  mkZ "Europe/Zurich" "EUROPE/ZURICH" 474,
  mkZ "GB" "GB" 475,
  mkZ "GB-Eire" "GB-EIRE" 476,
  mkZ "GMT" "GMT" 477,
  mkZ "GMT+0" "GMT+0" 478,
  mkZ "GMT-0" "GMT-0" 479,
  mkZ "GMT0" "GMT0" 480,
  mkZ "Greenwich" "GREENWICH" 481,
  mkZ "HST" "HST" 482,
  mkZ "Hongkong" "HONGKONG" 483,
  mkZ "Iceland" "ICELAND" 484,
  mkZ "Indian/Antananarivo" "INDIAN/ANTANANARIVO" 485,
  mkZ "Indian/Chagos" "INDIAN/CHAGOS" 486,
  mkZ "Indian/Christmas" "INDIAN/CHRISTMAS" 487,
  mkZ "Indian/Cocos" "INDIAN/COCOS" 488,
  mkZ "Indian/Comoro" "INDIAN/COMORO" 489,
  mkZ "Indian/Kerguelen" "INDIAN/KERGUELEN" 490,
  mkZ "Indian/Mahe" "INDIAN/MAHE" 491,
  mkZ "Indian/Maldives" "INDIAN/MALDIVES" 492,
  mkZ "Indian/Mauritius" "INDIAN/MAURITIUS" 493,
  mkZ "Indian/Mayotte" "INDIAN/MAYOTTE" 494,
  mkZ "Indian/Reunion" "INDIAN/REUNION" 495,
  mkZ "Iran" "IRAN" 496,
  mkZ "Israel" "ISRAEL" 497,
  mkZ "Jamaica" "JAMAICA" 498,
  mkZ "Japan" "JAPAN" 499,
  mkZ "Kwajalein" "KWAJALEIN" 500,
  mkZ "Libya" "LIBYA" 501,
  mkZ "MET" "MET" 502,
  mkZ "MST" "MST" 503,
  mkZ "MST7MDT" "MST7MDT" 504,
  mkZ "Mexico/BajaNorte" "MEXICO/BAJANORTE" 505,
  mkZ "Mexico/BajaSur" "MEXICO/BAJASUR" 506,
  mkZ "Mexico/General" "MEXICO/GENERAL" 507,
  mkZ "NZ" "NZ" 508,
  mkZ "NZ-CHAT" "NZ-CHAT" 509,
  mkZ "Navajo" "NAVAJO" 510,
  mkZ "PRC" "PRC" 511,
  mkZ "PST8PDT" "PST8PDT" 512,
  mkZ "Pacific/Apia" "PACIFIC/APIA" 513,
  mkZ "Pacific/Auckland" "PACIFIC/AUCKLAND" 514,
  mkZ "Pacific/Chatham" "PACIFIC/CHATHAM" 515,
  mkZ "Pacific/Chuuk" "PACIFIC/CHUUK" 516,
  mkZ "Pacific/Easter" "PACIFIC/EASTER" 517,
  mkZ "Pacific/Efate" "PACIFIC/EFATE" 518,
  mkZ "Pacific/Enderbury" "PACIFIC/ENDERBURY" 519,
  mkZ "Pacific/Fakaofo" "PACIFIC/FAKAOFO" 520,
  mkZ "Pacific/Fiji" "PACIFIC/FIJI" 521,
  mkZ "Pacific/Funafuti" "PACIFIC/FUNAFUTI" 522,
  mkZ "Pacific/Galapagos" "PACIFIC/GALAPAGOS" 523,
  mkZ "Pacific/Gambier" "PACIFIC/GAMBIER" 524,
  mkZ "Pacific/Guadalcanal" "PACIFIC/GUADALCANAL" 525,
  mkZ "Pacific/Guam" "PACIFIC/GUAM" 526,
  mkZ "Pacific/Honolulu" "PACIFIC/HONOLULU" 527,
  mkZ "Pacific/Johnston" "PACIFIC/JOHNSTON" 528,
  mkZ "Pacific/Kiritimati" "PACIFIC/KIRITIMATI" 529,
  mkZ "Pacific/Kosrae" "PACIFIC/KOSRAE" 530,
  mkZ "Pacific/Kwajalein" "PACIFIC/KWAJALEIN" 531,
  mkZ "Pacific/Majuro" "PACIFIC/MAJURO" 532,
  mkZ "Pacific/Marquesas" "PACIFIC/MARQUESAS" 533,
  mkZ "Pacific/Midway" "PACIFIC/MIDWAY" 534,
  mkZ "Pacific/Nauru" "PACIFIC/NAURU" 535,
  mkZ "Pacific/Niue" "PACIFIC/NIUE" 536,
  mkZ "Pacific/Norfolk" "PACIFIC/NORFOLK" 537,
  mkZ "Pacific/Noumea" "PACIFIC/NOUMEA" 538,
  mkZ "Pacific/Pago_Pago" "PACIFIC/PAGO_PAGO" 539,
  mkZ "Pacific/Palau" "PACIFIC/PALAU" 540,
  mkZ "Pacific/Pitcairn" "PACIFIC/PITCAIRN" 541,
  mkZ "Pacific/Pohnpei" "PACIFIC/POHNPEI" 542,
  mkZ "Pacific/Ponape" "PACIFIC/PONAPE" 543,
  mkZ "Pacific/Port_Moresby" "PACIFIC/PORT_MORESBY" 544,
  mkZ "Pacific/Rarotonga" "PACIFIC/RAROTONGA" 545,
  mkZ "Pacific/Saipan" "PACIFIC/SAIPAN" 546,
  mkZ "Pacific/Samoa" "PACIFIC/SAMOA" 547,
  mkZ "Pacific/Tahiti" "PACIFIC/TAHITI" 548,
  mkZ "Pacific/Tarawa" "PACIFIC/TARAWA" 549,
  mkZ "Pacific/Tongatapu" "PACIFIC/TONGATAPU" 550,
  mkZ "Pacific/Truk" "PACIFIC/TRUK" 551,
  mkZ "Pacific/Wake" "PACIFIC/WAKE" 552,
  mkZ "Pacific/Wallis" "PACIFIC/WALLIS" 553,
  mkZ "Pacific/Yap" "PACIFIC/YAP" 554,
  mkZ "Poland" "POLAND" 555,
  mkZ "Portugal" "PORTUGAL" 556,
  mkZ "ROC" "ROC" 557,
  mkZ "ROK" "ROK" 558,
  mkZ "Singapore" "SINGAPORE" 559,
  mkZ "Turkey" "TURKEY" 560,
  mkZ "UCT" "UCT" 561,
  mkZ "US/Alaska" "US/ALASKA" 562,
  mkZ "US/Aleutian" "US/ALEUTIAN" 563,
  mkZ "US/Arizona" "US/ARIZONA" 564,
  mkZ "US/Central" "US/CENTRAL" 565,
  mkZ "US/East-Indiana" "US/EAST-INDIANA" 566,
  mkZ "US/Eastern" "US/EASTERN" 567,
  mkZ "US/Hawaii" "US/HAWAII" 568,
  mkZ "US/Indiana-Starke" "US/INDIANA-STARKE" 569,
  mkZ "US/Michigan" "US/MICHIGAN" 570,
  mkZ "US/Mountain" "US/MOUNTAIN" 571,
  mkZ "US/Pacific" "US/PACIFIC" 572,
  mkZ "US/Pacific-New" "US/PACIFIC-NEW" 573,
  mkZ "US/Samoa" "US/SAMOA" 574,
  mkZ "UTC" "UTC" 575,
  mkZ "Universal" "UNIVERSAL" 576,
  mkZ "W-SU" "W-SU" 577,
  mkZ "WET" "WET" 578,
  mkZ "Zulu" "ZULU" 579,
]

/-- Byte value of an ASCII character. -/
def chCode (c : Char) : Nat := c.toNat

/-- Model of pg_toupper restricted to ASCII: fold a lowercase byte to
uppercase, leave everything else unchanged. -/
def pgToupperCode (c : Nat) : Nat := if 97 ≤ c ∧ c ≤ 122 then c - 32 else c

/-- A C string as its list of byte values. -/
def codes (s : String) : List Nat := s.data.map chCode

/-- The uppercase-folded byte string built by tzname_to_tzid before searching. -/
def upcodes (s : String) : List Nat := (codes s).map pgToupperCode

/-- C strcmp on byte strings: sign of the first differing position, with the
NUL terminator making a proper prefix compare less. -/
def strcmpCodes : List Nat → List Nat → Int
  | [], [] => 0
  | [], _ :: _ => -1
  | _ :: _, [] => 1
  | a :: as, b :: bs => if a < b then -1 else if b < a then 1 else strcmpCodes as bs

/-- Out-of-bounds array read placeholder (never reached for in-range indices). -/
def tzDefaultEntry : ZoneEntry := mkZ "" "" 0

/-- The while loop of tzname_to_tzid: binary search of the target byte string
over the nameupper column, with C truncating division for the midpoint.  The
fuel argument only bounds the iteration count; the C loop terminates because
the interval shrinks, and every run here uses more fuel than iterations. -/
def tzSearchLoop : Nat → Int → Int → List Nat → Int
  | 0, _, _, _ => 0
  | fuel + 1, first, last, target =>
    if first ≤ last then
      if strcmpCodes
          (codes (((timezones.get? ((Int.tdiv (first + last) 2).toNat)).getD
            tzDefaultEntry).nameupper)) target < 0 then
        tzSearchLoop fuel (Int.tdiv (first + last) 2 + 1) last target
      else if strcmpCodes
          (codes (((timezones.get? ((Int.tdiv (first + last) 2).toNat)).getD
            tzDefaultEntry).nameupper)) target = 0 then
        ((timezones.get? ((Int.tdiv (first + last) 2).toNat)).getD tzDefaultEntry).id
      else tzSearchLoop fuel first (Int.tdiv (first + last) 2 - 1) target
    else 0

/-- tzname_to_tzid: fold the input to uppercase, then binary search the
nameupper column; 0 when the search fails. -/
def tzname_to_tzid (s : String) : Int :=
  tzSearchLoop (timezones.length + 1) 0 (Int.ofNat timezones.length - 1) (upcodes s)

/-- tzid_to_tzname: the unchecked array read timezones[id - 1].name, as an
Option to expose the out-of-bounds case. -/
def tzid_to_tzname (id : Int) : Option String :=
  (timezones.get? (id - 1).toNat).map (fun e => e.name)

/-- C strcmp returns 0 only on equal byte strings. -/
theorem strcmpCodes_eq_zero : ∀ a b : List Nat, strcmpCodes a b = 0 → a = b := by
  intro a
  induction a with
  | nil =>
    intro b h
    cases b with
    | nil => rfl
    | cons t ts => simp [strcmpCodes] at h
  | cons x xs ih =>
    intro b h
    cases b with
    | nil => simp [strcmpCodes] at h
    | cons t ts =>
      simp only [strcmpCodes] at h
      by_cases h1 : x < t
      · simp [h1] at h
      · by_cases h2 : t < x
        · simp [h1, h2] at h
        · have hx : x = t := le_antisymm (not_lt.mp h2) (not_lt.mp h1)
          subst hx
          simp only [lt_irrefl, if_false] at h
          rw [ih ts h]

/-- The loop can only return a nonzero id by finding a catalog entry whose
nameupper equals the target byte string. -/
theorem tzSearchLoop_no_match (target : List Nat)
    (h : ∀ e ∈ timezones, codes e.nameupper ≠ target) :
    ∀ (fuel : Nat) (first last : Int), tzSearchLoop fuel first last target = 0 := by
  intro fuel
  induction fuel with
  | zero => intro first last; rfl
  | succ n ih =>
    intro first last
    unfold tzSearchLoop
    by_cases hle : first ≤ last
    · simp only [hle, if_true]
      rcases hget : timezones.get? ((Int.tdiv (first + last) 2).toNat) with _ | e
      · simp only [hget, Option.getD_none]
        rcases htg : target with _ | ⟨t, ts⟩
        · simp [tzDefaultEntry, mkZ, codes, strcmpCodes]
        · have h2 := ih (Int.tdiv (first + last) 2 + 1) last
          rw [htg] at h2
          simp [tzDefaultEntry, mkZ, codes, strcmpCodes, h2]
      · simp only [hget, Option.getD_some]
        have hmem : e ∈ timezones := List.get?_mem hget
        have hcmp : strcmpCodes (codes e.nameupper) target ≠ 0 := fun h0 =>
          h e hmem (strcmpCodes_eq_zero _ _ h0)
        by_cases hc : strcmpCodes (codes e.nameupper) target < 0
        · simp [hc, ih]
        · simp [hc, hcmp, ih]
    · simp [hle]

set_option maxRecDepth 100000 in
/-- C5 (code_bug evidence): the catalog contains the row (EST, EST, 377) and
tzid_to_tzname 377 = EST, yet tzname_to_tzid applied to that very name
returns 0 instead of 377: the timezones array is ordered by the mixed-case
name column, not by nameupper, so the binary search over nameupper misses
the entry.  Hence id_of (name_of 377) = 0, refuting the bijection. -/
theorem tzname_to_tzid_est_eval :
    tzid_to_tzname 377 = some "EST" ∧
    (mkZ "EST" "EST" 377) ∈ timezones ∧
    tzname_to_tzid "EST" = 0 ∧
    tzname_to_tzid "US/Eastern" = 567 := by
  refine ⟨by decide, by decide, by decide, by decide⟩

/-- Lookup of s is unchanged by folding s to uppercase first: the search only
ever sees the folded bytes (general catalog development lemma). -/
theorem tzname_to_tzid_case_fold (s t : String) (hf : upcodes s = upcodes t) :
    tzname_to_tzid s = tzname_to_tzid t := by
  unfold tzname_to_tzid
  rw [hf]

/-- A string whose uppercase form matches no catalog nameupper is looked up
as 0 (general catalog development lemma). -/
theorem tzname_to_tzid_absent (s : String)
    (h : ∀ e ∈ timezones, codes e.nameupper ≠ upcodes s) :
    tzname_to_tzid s = 0 :=
  tzSearchLoop_no_match (upcodes s) h _ _ _

/-! Interval arithmetic, from timestampandtz_pl_interval, mi_interval and mi
in src/unnamed/part_002 lines 592 to 732 (the same pl_interval body appears
in timestampandtz.c lines 416 to 499).  The host calendar and zone-rule
collaborators are abstracted as a Host record. -/

/-- Local broken-down time: the pg_tm fields this code reads and writes. -/
structure Tm where
  year : Int
  mon : Int
  mday : Int
  hour : Int
  min : Int
  sec : Int
deriving Repr, DecidableEq

/-- Result of the host decomposer timestamp2tm: local fields, fractional
microseconds, and the zone abbreviation string. -/
structure Decomp where
  tm : Tm
  fsec : Int
  tzn : Option String
deriving Repr, DecidableEq

/-- The external host collaborators: calendar decomposer, zone-rule offset
resolver, recombiner, julian day conversions, and the default date/time
text layout.  Decomposition and recombination return none on out-of-range
input, which the repository code turns into an ereport. -/
structure Host where
  timestamp2tm : Int → Option String → Option Decomp
  determineOffset : Tm → String → Int
  tm2timestamp : Tm → Int → Int → Option Int
  date2j : Int → Int → Int → Int
  j2date : Int → Int × Int × Int
  encodeDateTime : Decomp → String

/-- The host Interval value: months, days, microseconds. -/
structure PgInterval where
  month : Int
  day : Int
  time : Int
deriving Repr, DecidableEq

/-- isleap from the host datetime headers. -/
def isleap (y : Int) : Bool := y % 4 == 0 && (y % 100 != 0 || y % 400 == 0)

/-- The day_tab row for a non-leap or leap year (host datetime.c constant). -/
def dayTabRow (leap : Bool) : List Int :=
  if leap then [31, 29, 31, 30, 31, 30, 31, 31, 30, 31, 30, 31, 0]
  else [31, 28, 31, 30, 31, 30, 31, 31, 30, 31, 30, 31, 0]

/-- day_tab[isleap y][m - 1]: number of days of month m of year y. -/
def lastDayOfMonth (y m : Int) : Int :=
  ((dayTabRow (isleap y)).get? (m - 1).toNat).getD 0

/-- gen_timestamp from the source: build the stored value. -/
def gen_timestamp (t tz : Int) : TimestampAndTz := ⟨t, tz⟩

/-- The month-carry normalization exactly as written in the C month branch,
with C truncating division. -/
def normMonth (y m0 : Int) : Int × Int :=
  if m0 > 12 then (y + Int.tdiv (m0 - 1) 12, Int.tmod (m0 - 1) 12 + 1)
  else if m0 < 1 then (y + Int.tdiv m0 12 - 1, Int.tmod m0 12 + 12)
  else (y, m0)

/-- Month carry in the words of the spec: add to the month field with carry
into the year, i.e. floor arithmetic on the zero-based month count. -/
def normMonthSpec (y m0 : Int) : Int × Int :=
  (y + (m0 - 1) / 12, (m0 - 1) % 12 + 1)

/-- The end-of-month clamp exactly as written in the C month branch. -/
def clampCode (mday lastDay : Int) : Int := if mday > lastDay then lastDay else mday

/-- The two month-carry normalizations agree on every input. -/
theorem normMonth_eq (y m0 : Int) : normMonth y m0 = normMonthSpec y m0 := by
  unfold normMonth normMonthSpec
  split_ifs with h1 h2
  · rw [Int.tdiv_eq_ediv (by omega) (by norm_num),
      Int.tmod_eq_emod (by omega) (by norm_num)]
  · have h3 : Int.tdiv m0 12 = -(Int.tdiv (-m0) 12) := by rw [← Int.neg_tdiv, neg_neg]
    have h4 : Int.tmod m0 12 = -(Int.tmod (-m0) 12) := by
      simp [Int.tmod_def, Int.neg_tdiv]; ring
    rw [h3, Int.tdiv_eq_ediv (by omega) (by norm_num), h4,
      Int.tmod_eq_emod (by omega) (by norm_num)]
    refine Prod.ext ?_ ?_ <;> simp <;> omega
  · refine Prod.ext ?_ ?_ <;> simp <;> omega

/-- The conditional clamp is end-of-month saturation. -/
theorem clampCode_eq_min (mday lastDay : Int) :
    clampCode mday lastDay = min mday lastDay := by
  rw [clampCode, Int.min_def]
  split_ifs <;> omega

/-- The span.month branch of timestampandtz_pl_interval: decompose in the
zone, add the months with the C carry code, clamp with the C conditional,
re-resolve the offset, recombine. -/
def pl_month_code (h : Host) (tzn : String) (months t : Int) : CRes Int :=
  match h.timestamp2tm t (some tzn) with
  | none => .err "timestamp out of range"
  | some d =>
    let ym := normMonth d.tm.year (d.tm.mon + months)
    let day2 := clampCode d.tm.mday (lastDayOfMonth ym.1 ym.2)
    let tm2 : Tm := ⟨ym.1, ym.2, day2, d.tm.hour, d.tm.min, d.tm.sec⟩
    match h.tm2timestamp tm2 d.fsec (h.determineOffset tm2 tzn) with
    | none => .err "timestamp out of range"
    | some t2 => .ok t2

/-- The span.day branch of timestampandtz_pl_interval: decompose again, add
the days via the julian day number, re-resolve the offset, recombine. -/
def pl_day_code (h : Host) (tzn : String) (days t : Int) : CRes Int :=
  match h.timestamp2tm t (some tzn) with
  | none => .err "timestamp out of range"
  | some d =>
    let julian := h.date2j d.tm.year d.tm.mon d.tm.mday + days
    let ymd := h.j2date julian
    let tm2 : Tm := ⟨ymd.1, ymd.2.1, ymd.2.2, d.tm.hour, d.tm.min, d.tm.sec⟩
    match h.tm2timestamp tm2 d.fsec (h.determineOffset tm2 tzn) with
    | none => .err "timestamp out of range"
    | some t2 => .ok t2

/-- timestampandtz_pl_interval, transcribed: bail out to (DT_NOEND, 0) on a
non-finite instant or zone id 0, otherwise month branch, day branch, then
add span.time directly to the instant; the stored zone id is kept. -/
def timestampandtz_pl_interval (h : Host) (dt : TimestampAndTz) (span : PgInterval) :
    CRes TimestampAndTz :=
  if TIMESTAMP_NOT_FINITE dt.time ∨ dt.tz = 0 then
    .ok (gen_timestamp DT_NOEND 0)
  else
    match tzid_to_tzname dt.tz with
    | none => .crash
    | some tzn =>
      CRes.bind
        (if span.month ≠ 0 then pl_month_code h tzn span.month dt.time else .ok dt.time)
        (fun t1 =>
          CRes.bind
            (if span.day ≠ 0 then pl_day_code h tzn span.day t1 else .ok t1)
            (fun t2 => .ok (gen_timestamp (t2 + span.time) dt.tz)))

/-- timestampandtz_mi_interval, transcribed: negate the three interval
components and add. -/
def timestampandtz_mi_interval (h : Host) (dt : TimestampAndTz) (span : PgInterval) :
    CRes TimestampAndTz :=
  timestampandtz_pl_interval h (gen_timestamp dt.time dt.tz)
    ⟨-span.month, -span.day, -span.time⟩

/-- Month step in the words of the spec: if months is zero do nothing, else
decompose to local fields in the zone, add months to the month field with
carry into the year, clamp the day-of-month to the last valid day of the
resulting month, re-resolve the UTC offset, recombine. -/
def monthStepSpec (h : Host) (tzn : String) (months t : Int) : CRes Int :=
  if months = 0 then .ok t
  else
    match h.timestamp2tm t (some tzn) with
    | none => .err "timestamp out of range"
    | some d =>
      let ym := normMonthSpec d.tm.year (d.tm.mon + months)
      let day2 := min d.tm.mday (lastDayOfMonth ym.1 ym.2)
      let tm2 : Tm := ⟨ym.1, ym.2, day2, d.tm.hour, d.tm.min, d.tm.sec⟩
      match h.tm2timestamp tm2 d.fsec (h.determineOffset tm2 tzn) with
      | none => .err "timestamp out of range"
      | some t2 => .ok t2

/-- Day step in the words of the spec: if days is zero do nothing, else
decompose, convert the local date to a linear day number, add days, convert
back, re-resolve the offset, recombine. -/
def dayStepSpec (h : Host) (tzn : String) (days t : Int) : CRes Int :=
  if days = 0 then .ok t
  else
    match h.timestamp2tm t (some tzn) with
    | none => .err "timestamp out of range"
    | some d =>
      let julian := h.date2j d.tm.year d.tm.mon d.tm.mday + days
      let ymd := h.j2date julian
      let tm2 : Tm := ⟨ymd.1, ymd.2.1, ymd.2.2, d.tm.hour, d.tm.min, d.tm.sec⟩
      match h.tm2timestamp tm2 d.fsec (h.determineOffset tm2 tzn) with
      | none => .err "timestamp out of range"
      | some t2 => .ok t2

/-- The code month branch agrees with the spec month step. -/
theorem month_step_eq (h : Host) (tzn : String) (months t : Int) :
    (if months ≠ 0 then pl_month_code h tzn months t else .ok t) =
      monthStepSpec h tzn months t := by
  by_cases hm : months = 0
  · simp [hm, monthStepSpec]
  · simp only [hm, ne_eq, not_false_eq_true, if_true, monthStepSpec, if_false]
    unfold pl_month_code
    cases h.timestamp2tm t (some tzn) with
    | none => rfl
    | some d => simp only [normMonth_eq, clampCode_eq_min]

/-- The code day branch agrees with the spec day step. -/
theorem day_step_eq (h : Host) (tzn : String) (days t : Int) :
    (if days ≠ 0 then pl_day_code h tzn days t else .ok t) =
      dayStepSpec h tzn days t := by
  by_cases hd : days = 0
  · simp [hd, dayStepSpec]
  · simp only [hd, ne_eq, not_false_eq_true, if_true, dayStepSpec, if_false]
    rfl

/-- Rearranging a CRes pipeline: binding into a pure constructor is rmap. -/
theorem cres_bind_rmap (x : CRes Int) (g : Int → CRes Int) (f : Int → TimestampAndTz) :
    CRes.bind x (fun t1 => CRes.bind (g t1) (fun t2 => .ok (f t2))) =
      CRes.rmap f (CRes.bind x g) := by
  cases x with
  | ok a =>
    simp only [CRes.bind]
    cases g a <;> simp [CRes.bind, CRes.rmap]
  | err m => rfl
  | crash => rfl

/-- C2: for a finite instant and a resolvable non-zero zone id, adding an
interval is exactly the spec pipeline: month step (carry into the year,
end-of-month saturation, offset re-resolution), then day step (linear day
number, offset re-resolution), then span.time added directly to the instant
with no further re-resolution; the result keeps the original zone id, and
subtracting an interval is adding its negation. -/
theorem timestampandtz_pl_interval_spec (h : Host) (dt : TimestampAndTz)
    (span : PgInterval) (tzn : String)
    (hfin : ¬ TIMESTAMP_NOT_FINITE dt.time) (htz : dt.tz ≠ 0)
    (hname : tzid_to_tzname dt.tz = some tzn) :
    timestampandtz_pl_interval h dt span =
      CRes.rmap (fun t2 => gen_timestamp (t2 + span.time) dt.tz)
        (CRes.bind (monthStepSpec h tzn span.month dt.time)
          (dayStepSpec h tzn span.day)) ∧
    (∀ res, timestampandtz_pl_interval h dt span = .ok res → res.tz = dt.tz) ∧
    timestampandtz_mi_interval h dt span =
      timestampandtz_pl_interval h dt ⟨-span.month, -span.day, -span.time⟩ := by
  have hcond : ¬ (TIMESTAMP_NOT_FINITE dt.time ∨ dt.tz = 0) := by
    intro hc; rcases hc with hc | hc
    · exact hfin hc
    · exact htz hc
  have hmain : timestampandtz_pl_interval h dt span =
      CRes.rmap (fun t2 => gen_timestamp (t2 + span.time) dt.tz)
        (CRes.bind (monthStepSpec h tzn span.month dt.time)
          (dayStepSpec h tzn span.day)) := by
    unfold timestampandtz_pl_interval
    rw [if_neg hcond, hname]
    simp only [month_step_eq, day_step_eq]
    exact cres_bind_rmap _ _ _
  refine ⟨hmain, ?_, ?_⟩
  · intro res hres
    rw [hmain] at hres
    cases hmid : CRes.bind (monthStepSpec h tzn span.month dt.time)
        (dayStepSpec h tzn span.day) with
    | ok t2 =>
      rw [hmid] at hres
      simp only [CRes.rmap, CRes.ok.injEq] at hres
      rw [← hres]
      rfl
    | err m => rw [hmid] at hres; simp [CRes.rmap] at hres
    | crash => rw [hmid] at hres; simp [CRes.rmap] at hres
  · unfold timestampandtz_mi_interval
    cases dt
    rfl

/-- A concrete host instance used by witnesses: a fixed decomposition and
trivial calendar functions. -/
def hostW : Host where
  timestamp2tm := fun _ _ => some ⟨⟨2014, 9, 18, 20, 15, 0⟩, 0, some "EDT"⟩
  determineOffset := fun _ _ => 18000
  tm2timestamp := fun _ _ _ => some 1411085700000000
  date2j := fun _ _ _ => 2456919
  j2date := fun _ => (2014, 12, 18)
  encodeDateTime := fun _ => "Thu Sep 18 20:15:00 2014"

set_option maxRecDepth 100000 in
/-- Witness for C2 at the concrete input (instant 0, zone US/Eastern id 567,
span 3 months). -/
theorem timestampandtz_pl_interval_spec_witness :
    (¬ TIMESTAMP_NOT_FINITE (0 : Int)) ∧ (567 : Int) ≠ 0 ∧
      tzid_to_tzname 567 = some "US/Eastern" ∧
      (∀ res, timestampandtz_pl_interval hostW ⟨0, 567⟩ ⟨3, 0, 0⟩ = .ok res →
        res.tz = 567) :=
  ⟨by decide, by decide, by decide,
    (timestampandtz_pl_interval_spec hostW ⟨0, 567⟩ ⟨3, 0, 0⟩ "US/Eastern"
      (by decide) (by decide) (by decide)).2.1⟩

/-- C10: adding (or, through negation, subtracting) an interval to a value
whose instant is non-finite or whose zone id is 0 raises no error: it
returns ok with the far-future sentinel DT_NOEND and zone id 0, discarding
the input instant and the whole span. -/
theorem timestampandtz_pl_interval_invalid_spec (h : Host) (dt : TimestampAndTz)
    (span : PgInterval) (hbad : TIMESTAMP_NOT_FINITE dt.time ∨ dt.tz = 0) :
    timestampandtz_pl_interval h dt span = .ok (gen_timestamp DT_NOEND 0) ∧
    timestampandtz_mi_interval h dt span = .ok (gen_timestamp DT_NOEND 0) := by
  constructor
  · unfold timestampandtz_pl_interval
    rw [if_pos hbad]
  · unfold timestampandtz_mi_interval timestampandtz_pl_interval
    simp only [gen_timestamp]
    rw [if_pos hbad]

/-- Witness for C10 at the concrete input (DT_NOEND, zone id 0) with a span
of 5 months, 4 days, 3 microseconds. -/
theorem timestampandtz_pl_interval_invalid_spec_witness :
    (TIMESTAMP_NOT_FINITE DT_NOEND ∨ (0 : Int) = 0) ∧
      timestampandtz_pl_interval hostW ⟨DT_NOEND, 0⟩ ⟨5, 4, 3⟩ =
        .ok (gen_timestamp DT_NOEND 0) :=
  ⟨Or.inr rfl,
    (timestampandtz_pl_interval_invalid_spec hostW ⟨DT_NOEND, 0⟩ ⟨5, 4, 3⟩
      (Or.inr rfl)).1⟩

/-! Text output, from timestampandtz_out (src/unnamed/part_002 lines 298 to
330, identical in timestampandtz.c lines 152 to 184), and the difference
operator timestampandtz_mi (lines 712 to 732). -/

/-- EncodeSpecialTimestamp: text for the two non-finite sentinels (EARLY and
LATE from the host headers); only called under TIMESTAMP_NOT_FINITE. -/
def EncodeSpecialTimestamp (t : Int) : String :=
  if t = DT_NOBEGIN then "-infinity" else "infinity"

/-- timestampandtz_out, transcribed: when the zone id is nonzero the name is
looked up (an out-of-range id is an unchecked array read, hence crash);
when it is zero the name pointer stays NULL.  The date text is built first
(special text for sentinels, host layout otherwise, reported error when
decomposition fails), and then the function unconditionally appends
" @ " and the zone name, which for a NULL name is undefined behaviour. -/
def timestampandtz_out (h : Host) (dt : TimestampAndTz) : CRes String :=
  if dt.tz ≠ 0 ∧ tzid_to_tzname dt.tz = none then .crash
  else
    CRes.bind
      (if TIMESTAMP_NOT_FINITE dt.time then .ok (EncodeSpecialTimestamp dt.time)
       else
         match h.timestamp2tm dt.time
             (if dt.tz ≠ 0 then tzid_to_tzname dt.tz else none) with
         | some d => .ok (h.encodeDateTime d)
         | none => .err "timestamp out of range")
      (fun buf =>
        match (if dt.tz ≠ 0 then tzid_to_tzname dt.tz else none) with
        | none => .crash
        | some nm => .ok (buf ++ " @ " ++ nm))

set_option maxRecDepth 100000 in
/-- C4 (code_bug evidence): on a value with zone id 0 the output routine does
not raise an error; it reaches the strcat through the NULL zone name, i.e.
undefined behaviour, both for non-finite instants (such as the (DT_NOEND, 0)
value produced by interval addition on invalid input) and for finite ones.
For a valid zone id the output is the local date text with " @ " and the
zone name appended. -/
theorem timestampandtz_out_zero_zone_eval :
    timestampandtz_out hostW ⟨DT_NOEND, 0⟩ = .crash ∧
    timestampandtz_out hostW ⟨0, 0⟩ = .crash ∧
    timestampandtz_out hostW ⟨0, 567⟩ =
      .ok ("Thu Sep 18 20:15:00 2014" ++ " @ " ++ "US/Eastern") := by
  refine ⟨by decide, by decide, by decide⟩

/-- USECS_PER_DAY from the host headers. -/
def USECS_PER_DAY : Int := 86400000000

/-- interval_justify_hours of the host (its timestamp.c): move whole days
from the time field into the day field with truncating division, then adjust
so day and time do not have opposite signs.  The month field is untouched.
Modelled from the host source semantics; not repository code. -/
def interval_justify_hours (s : PgInterval) : PgInterval :=
  let wholeday := Int.tdiv s.time USECS_PER_DAY
  let time1 := Int.tmod s.time USECS_PER_DAY
  let day1 := s.day + wholeday
  if day1 > 0 ∧ time1 < 0 then ⟨s.month, day1 - 1, time1 + USECS_PER_DAY⟩
  else if day1 < 0 ∧ time1 > 0 then ⟨s.month, day1 + 1, time1 - USECS_PER_DAY⟩
  else ⟨s.month, day1, time1⟩

/-- timestampandtz_mi, transcribed: error when either side is non-finite or
has zone id 0, otherwise the interval (0 months, 0 days, left - right)
passed through interval_justify_hours. -/
def timestampandtz_mi (l r : TimestampAndTz) : CRes PgInterval :=
  if TIMESTAMP_NOT_FINITE l.time ∨ TIMESTAMP_NOT_FINITE r.time ∨
      l.tz = 0 ∨ r.tz = 0 then
    .err "cannot subtract infinite timestamps"
  else
    .ok (interval_justify_hours ⟨0, 0, l.time - r.time⟩)

/-- Justification preserves the month field and the total duration in
microseconds. -/
theorem interval_justify_hours_total (s : PgInterval) :
    (interval_justify_hours s).month = s.month ∧
    (interval_justify_hours s).day * USECS_PER_DAY + (interval_justify_hours s).time =
      s.day * USECS_PER_DAY + s.time := by
  have hdm := Int.tdiv_add_tmod s.time USECS_PER_DAY
  simp only [interval_justify_hours]
  split_ifs <;> constructor <;> simp <;> nlinarith [hdm]

/-- C6: the difference raises a reportable error exactly when either operand
has a non-finite instant or a zero zone id; otherwise it returns an interval
with no month component whose total duration in microseconds is exactly
a.time - b.time. -/
theorem timestampandtz_mi_spec (a b : TimestampAndTz) :
    ((TIMESTAMP_NOT_FINITE a.time ∨ TIMESTAMP_NOT_FINITE b.time ∨
        a.tz = 0 ∨ b.tz = 0) →
      timestampandtz_mi a b = .err "cannot subtract infinite timestamps") ∧
    (¬ (TIMESTAMP_NOT_FINITE a.time ∨ TIMESTAMP_NOT_FINITE b.time ∨
        a.tz = 0 ∨ b.tz = 0) →
      ∃ res, timestampandtz_mi a b = .ok res ∧ res.month = 0 ∧
        res.day * USECS_PER_DAY + res.time = a.time - b.time) := by
  constructor
  · intro hbad
    unfold timestampandtz_mi
    rw [if_pos hbad]
  · intro hok
    refine ⟨interval_justify_hours ⟨0, 0, a.time - b.time⟩, ?_, ?_, ?_⟩
    · unfold timestampandtz_mi
      rw [if_neg hok]
    · exact (interval_justify_hours_total ⟨0, 0, a.time - b.time⟩).1
    · have h2 := (interval_justify_hours_total ⟨0, 0, a.time - b.time⟩).2
      simpa using h2

/-- Witness for C6 at the concrete operands (5 us, US/Eastern) minus
(2 us, America/Chicago), and the error case at a non-finite left operand. -/
theorem timestampandtz_mi_spec_witness :
    (¬ (TIMESTAMP_NOT_FINITE (5 : Int) ∨ TIMESTAMP_NOT_FINITE (2 : Int) ∨
        (567 : Int) = 0 ∨ (94 : Int) = 0)) ∧
    (∃ res, timestampandtz_mi ⟨5, 567⟩ ⟨2, 94⟩ = .ok res ∧ res.month = 0 ∧
      res.day * USECS_PER_DAY + res.time = (5 : Int) - 2) ∧
    (TIMESTAMP_NOT_FINITE DT_NOEND ∨ TIMESTAMP_NOT_FINITE (2 : Int) ∨
        (567 : Int) = 0 ∨ (94 : Int) = 0) ∧
    timestampandtz_mi ⟨DT_NOEND, 567⟩ ⟨2, 94⟩ =
      .err "cannot subtract infinite timestamps" :=
  ⟨by decide,
    (timestampandtz_mi_spec ⟨5, 567⟩ ⟨2, 94⟩).2 (by decide),
    Or.inl (Or.inr rfl),
    (timestampandtz_mi_spec ⟨DT_NOEND, 567⟩ ⟨2, 94⟩).1 (Or.inl (Or.inr rfl))⟩

/-! Typmod precision handling, from anytimestamp_typmodin and
AdjustTimestampForTypmod in src/unnamed/part_002 lines 76 to 190, and the
place of the adjustment in timestampandtz_in (line 294). -/

/-- MAX_TIMESTAMP_PRECISION from the host headers. -/
def MAX_TIMESTAMP_PRECISION : Int := 6

/-- TimestampScales[p]: microseconds per retained unit at precision p. -/
def timestampScale (p : Int) : Int :=
  if p = 0 then 1000000 else if p = 1 then 100000 else if p = 2 then 10000
  else if p = 3 then 1000 else if p = 4 then 100 else if p = 5 then 10
  else if p = 6 then 1 else 0

/-- TimestampOffsets[p]: the half-unit added before truncation. -/
def timestampOffset (p : Int) : Int :=
  if p = 0 then 500000 else if p = 1 then 50000 else if p = 2 then 5000
  else if p = 3 then 500 else if p = 4 then 50 else if p = 5 then 5
  else if p = 6 then 0 else 0

/-- AdjustTimestampForTypmod, transcribed: skip non-finite values, typmod -1
and typmod 6; reject out-of-range typmods; otherwise round by adding the
half-unit and truncating, mirrored around zero (the integer code always
rounds ties away from zero, per its own comment). -/
def AdjustTimestampForTypmod (time typmod : Int) : CRes Int :=
  if ¬ TIMESTAMP_NOT_FINITE time ∧ typmod ≠ -1 ∧ typmod ≠ MAX_TIMESTAMP_PRECISION then
    if typmod < 0 ∨ typmod > MAX_TIMESTAMP_PRECISION then
      .err "timestamp precision must be between 0 and 6"
    else if 0 ≤ time then
      .ok (((time + timestampOffset typmod) / timestampScale typmod) *
        timestampScale typmod)
    else
      .ok (-((((-time) + timestampOffset typmod) / timestampScale typmod) *
        timestampScale typmod))
  else .ok time

/-- anytimestamp_typmodin, transcribed: exactly one modifier; negative is an
error; above the maximum is clamped to the maximum with a warning (the Bool
records that the warning was emitted). -/
def anytimestamp_typmodin (tl : List Int) : CRes (Int × Bool) :=
  match tl with
  | [t] =>
    if t < 0 then .err "precision must not be negative"
    else if t > MAX_TIMESTAMP_PRECISION then .ok (MAX_TIMESTAMP_PRECISION, true)
    else .ok (t, false)
  | _ => .err "invalid type modifier"

/-- The date construction path of timestampandtz_in after parsing: resolve
the offset for the parsed local wall-clock time, combine to a UTC instant,
apply the precision adjustment to the finished instant, attach the zone id. -/
def timestampandtz_in_datePath (h : Host) (tm : Tm) (fsec : Int) (tzn : String)
    (tzid typmod : Int) : CRes TimestampAndTz :=
  match h.tm2timestamp tm fsec (h.determineOffset tm tzn) with
  | none => .err "timestamp out of range"
  | some ts =>
    CRes.bind (AdjustTimestampForTypmod ts typmod)
      (fun ts2 => .ok (gen_timestamp ts2 tzid))

/-- Properties of the rounding expression r = ((t + s/2)/s)*s for 0 < s and
0 ≤ t: r is a multiple of s, within half a unit of t, and the below tie is
impossible. -/
theorem round_pos_props (t s : Int) (hs : 0 < s) :
    s ∣ (t + s / 2) / s * s ∧
    -s ≤ 2 * (t - (t + s / 2) / s * s) ∧
    2 * (t - (t + s / 2) / s * s) ≤ s ∧
    (2 * (t - (t + s / 2) / s * s) = s → False) := by
  set q := (t + s / 2) / s with hq
  set e := (t + s / 2) % s with he
  have hkey : s * q + e = t + s / 2 := Int.ediv_add_emod (t + s / 2) s
  have he0 : 0 ≤ e := Int.emod_nonneg _ (by omega)
  have he1 : e < s := Int.emod_lt_of_pos _ hs
  have hhalf : s = 2 * (s / 2) + s % 2 := (Int.ediv_add_emod s 2).symm.trans (by ring)
  have hp0 : 0 ≤ s % 2 := Int.emod_nonneg _ (by omega)
  have hp1 : s % 2 < 2 := Int.emod_lt_of_pos _ (by omega)
  refine ⟨dvd_mul_left _ _, ?_, ?_, ?_⟩
  · nlinarith [hkey, he0, he1, hhalf, hp0, hp1]
  · nlinarith [hkey, he0, he1, hhalf, hp0, hp1]
  · intro htie
    nlinarith [hkey, he0, he1, hhalf, hp0, hp1]

/-- The signed rounding formula of AdjustTimestampForTypmod: a multiple of
the scale, within half a scale of the input, ties away from zero. -/
theorem adjust_formula_props (t s : Int) (hs : 0 < s) :
    s ∣ (if 0 ≤ t then (t + s / 2) / s * s else -(((-t) + s / 2) / s * s)) ∧
    -s ≤ 2 * (t - (if 0 ≤ t then (t + s / 2) / s * s else -(((-t) + s / 2) / s * s))) ∧
    2 * (t - (if 0 ≤ t then (t + s / 2) / s * s else -(((-t) + s / 2) / s * s))) ≤ s ∧
    ((2 * (t - (if 0 ≤ t then (t + s / 2) / s * s else -(((-t) + s / 2) / s * s))) = s ∨
      2 * ((if 0 ≤ t then (t + s / 2) / s * s else -(((-t) + s / 2) / s * s)) - t) = s) →
      (0 ≤ t ∧ 2 * (if 0 ≤ t then (t + s / 2) / s * s else -(((-t) + s / 2) / s * s)) =
        2 * t + s) ∨
      (t < 0 ∧ 2 * (if 0 ≤ t then (t + s / 2) / s * s else -(((-t) + s / 2) / s * s)) =
        2 * t - s)) := by
  by_cases ht : 0 ≤ t
  · simp only [if_pos ht]
    obtain ⟨hd, hlo, hhi, htie⟩ := round_pos_props t s hs
    refine ⟨hd, hlo, hhi, ?_⟩
    rintro (h1 | h2)
    · exact absurd h1 htie
    · exact Or.inl ⟨ht, by linarith⟩
  · simp only [if_neg ht]
    obtain ⟨hd, hlo, hhi, htie⟩ := round_pos_props (-t) s hs
    refine ⟨(dvd_neg).mpr hd, by linarith, by linarith, ?_⟩
    rintro (h1 | h2)
    · exact Or.inr ⟨by omega, by linarith⟩
    · exact absurd (by linarith) htie

/-- Scale and offset facts for precisions 0 to 6. -/
theorem scale_offset_facts (p : Int) (h0 : 0 ≤ p) (h6 : p ≤ 6) :
    0 < timestampScale p ∧ timestampOffset p = timestampScale p / 2 := by
  interval_cases p <;> norm_num [timestampScale, timestampOffset]

/-- C8: for a finite instant and precision p between 0 and 6 the adjusted
instant exists without error and is the multiple of the scale nearest the
input, ties rounded away from zero (round-half-up on the magnitude of the
fractional part); a precision above 6 is clamped to 6 with a warning, not an
error; a negative precision is a reportable error; and in the construction
path the adjustment is applied last, to the fully combined UTC instant,
leaving the zone id untouched. -/
theorem timestampandtz_precision_spec (t p : Int)
    (hfin : ¬ TIMESTAMP_NOT_FINITE t) (h0 : 0 ≤ p) (h6 : p ≤ 6) :
    (∃ r, AdjustTimestampForTypmod t p = .ok r ∧
      timestampScale p ∣ r ∧
      -(timestampScale p) ≤ 2 * (t - r) ∧ 2 * (t - r) ≤ timestampScale p ∧
      ((2 * (t - r) = timestampScale p ∨ 2 * (r - t) = timestampScale p) →
        (0 ≤ t ∧ 2 * r = 2 * t + timestampScale p) ∨
        (t < 0 ∧ 2 * r = 2 * t - timestampScale p))) ∧
    (∀ q : Int, q > 6 → anytimestamp_typmodin [q] = .ok (6, true)) ∧
    (∀ q : Int, q < 0 → anytimestamp_typmodin [q] =
      .err "precision must not be negative") ∧
    (∀ (h : Host) (tm : Tm) (fsec : Int) (tzn : String) (tzid ts : Int),
      h.tm2timestamp tm fsec (h.determineOffset tm tzn) = some ts →
      timestampandtz_in_datePath h tm fsec tzn tzid p =
        CRes.rmap (fun x => gen_timestamp x tzid) (AdjustTimestampForTypmod ts p)) := by
  obtain ⟨hs, hoff⟩ := scale_offset_facts p h0 h6
  refine ⟨?_, ?_, ?_, ?_⟩
  · by_cases hp6 : p = 6
    · subst hp6
      refine ⟨t, ?_, ?_, ?_, ?_, ?_⟩
      · unfold AdjustTimestampForTypmod
        rw [if_neg (by simp [MAX_TIMESTAMP_PRECISION])]
      · norm_num [timestampScale]
      · norm_num [timestampScale]
      · norm_num [timestampScale]
      · intro htie
        norm_num [timestampScale] at htie
    · have hok : AdjustTimestampForTypmod t p =
          .ok (if 0 ≤ t then (t + timestampScale p / 2) / timestampScale p *
                timestampScale p
              else -(((-t) + timestampScale p / 2) / timestampScale p *
                timestampScale p)) := by
        unfold AdjustTimestampForTypmod
        rw [if_pos ⟨hfin, by omega, by simp [MAX_TIMESTAMP_PRECISION, hp6]⟩,
          if_neg (by unfold MAX_TIMESTAMP_PRECISION; omega), hoff]
        split_ifs <;> rfl
      exact ⟨_, hok, adjust_formula_props t (timestampScale p) hs⟩
  · intro q hq
    simp only [anytimestamp_typmodin]
    rw [if_neg (by omega), if_pos (by unfold MAX_TIMESTAMP_PRECISION; omega)]
    rfl
  · intro q hq
    simp only [anytimestamp_typmodin]
    rw [if_pos hq]
  · intro h tm fsec tzn tzid ts hts
    unfold timestampandtz_in_datePath
    rw [hts]
    cases hA : AdjustTimestampForTypmod ts p <;> simp [hA, CRes.bind, CRes.rmap]

/-- Witness for C8 at the concrete instant 1500000 us (1.5 s past the epoch)
and precision 0, plus the clamp at precision 9 and the error at -1. -/
theorem timestampandtz_precision_spec_witness :
    (¬ TIMESTAMP_NOT_FINITE (1500000 : Int)) ∧ (0 : Int) ≤ 0 ∧ (0 : Int) ≤ 6 ∧
    (∃ r, AdjustTimestampForTypmod 1500000 0 = .ok r ∧
      timestampScale 0 ∣ r ∧
      -(timestampScale 0) ≤ 2 * (1500000 - r) ∧
      2 * (1500000 - r) ≤ timestampScale 0 ∧
      ((2 * (1500000 - r) = timestampScale 0 ∨ 2 * (r - 1500000) = timestampScale 0) →
        (0 ≤ (1500000 : Int) ∧ 2 * r = 2 * 1500000 + timestampScale 0) ∨
        ((1500000 : Int) < 0 ∧ 2 * r = 2 * 1500000 - timestampScale 0))) ∧
    anytimestamp_typmodin [9] = .ok (6, true) ∧
    anytimestamp_typmodin [-1] = .err "precision must not be negative" :=
  ⟨by decide, by decide, by decide,
    (timestampandtz_precision_spec 1500000 0 (by decide) (by decide) (by decide)).1,
    (timestampandtz_precision_spec 1500000 0 (by decide) (by decide) (by decide)).2.1
      9 (by decide),
    (timestampandtz_precision_spec 1500000 0 (by decide) (by decide) (by decide)).2.2.1
      (-1) (by decide)⟩

/-! Ordinal suffixes, from get_th in src/to_char.c lines 1521 to 1559.  The
rendered number reaching get_th is a C digit string (sprintf %d output),
modelled as its list of byte codes. -/

/-- Little-endian decimal digits of a natural number (fuel-bounded so that
the kernel can evaluate it). -/
def decDigitsRev : Nat → Nat → List Nat
  | 0, _ => []
  | fuel + 1, n => if n < 10 then [n] else n % 10 :: decDigitsRev fuel (n / 10)

/-- Byte codes of the decimal rendering of n, most significant digit first,
exactly the sprintf %d output for a nonnegative value. -/
def decCodes (n : Nat) : List Nat :=
  ((decDigitsRev (n + 1) n).map (fun d => d + 48)).reverse

/-- Body of get_th over the reversed byte string: the C code reads the last
character, errors when it is not a digit, zeroes it when the second-to-last
character is 1 (the teens), then switches on it.  An empty string would read
before the buffer, hence crash. -/
def get_th_rev : List Nat → Nat → CRes String
  | [], _ => .crash
  | lastc :: rest, ty =>
    if ¬ (48 ≤ lastc ∧ lastc ≤ 57) then .err "is not a number"
    else
      let last2 := if rest ≠ [] ∧ rest.head? = some 49 then 0 else lastc
      if last2 = 49 then .ok (if ty = 1 then "ST" else "st")
      else if last2 = 50 then .ok (if ty = 1 then "ND" else "nd")
      else if last2 = 51 then .ok (if ty = 1 then "RD" else "rd")
      else .ok (if ty = 1 then "TH" else "th")

/-- get_th, transcribed: ST/ND/RD/TH or st/nd/rd/th for the digit string num
(ty = 1 is TH_UPPER, anything else lowercase). -/
def get_th (num : List Nat) (ty : Nat) : CRes String := get_th_rev num.reverse ty

/-- Reshaping of the get_th switch: the teen test decides TH directly,
otherwise the last digit decides. -/
theorem get_th_rev_cons (lastc : Nat) (rest : List Nat) (ty : Nat)
    (hd : 48 ≤ lastc ∧ lastc ≤ 57) :
    get_th_rev (lastc :: rest) ty =
      if rest ≠ [] ∧ rest.head? = some 49 then .ok (if ty = 1 then "TH" else "th")
      else if lastc = 49 then .ok (if ty = 1 then "ST" else "st")
      else if lastc = 50 then .ok (if ty = 1 then "ND" else "nd")
      else if lastc = 51 then .ok (if ty = 1 then "RD" else "rd")
      else .ok (if ty = 1 then "TH" else "th") := by
  simp only [get_th_rev]
  rw [if_neg (by simp [hd.1, hd.2])]
  by_cases hc : rest ≠ [] ∧ rest.head? = some 49
  · simp [hc]
  · simp [hc]

/-- Shape of the little-endian digit list: head is n mod 10, and for n at
least 10 the next entry is the tens digit. -/
theorem decDigitsRev_shape : ∀ (fuel n : Nat), n < fuel →
    ∃ t, decDigitsRev fuel n = (n % 10) :: t ∧
      (n < 10 → t = []) ∧
      (10 ≤ n → ∃ t2, t = ((n / 10) % 10) :: t2) := by
  intro fuel
  induction fuel with
  | zero => intro n h; omega
  | succ f ih =>
    intro n h
    unfold decDigitsRev
    by_cases hn : n < 10
    · refine ⟨[], ?_, fun _ => rfl, ?_⟩
      · simp [hn, Nat.mod_eq_of_lt hn]
      · intro h10
        exact absurd h10 (by omega)
    · rw [if_neg hn]
      have hlt : n / 10 < f := by
        have h1 : n / 10 < n := Nat.div_lt_self (by omega) (by omega)
        omega
      obtain ⟨t2, ht2, _, _⟩ := ih (n / 10) hlt
      refine ⟨decDigitsRev f (n / 10), rfl, ?_, ?_⟩
      · intro hc
        exact absurd hc hn
      · intro _
        exact ⟨t2, ht2⟩

/-- The digit codes of n are digits, most significant first, reversing to
(last digit) :: (second-to-last digit) :: rest. -/
theorem decCodes_reverse (n : Nat) :
    ∃ t, (decCodes n).reverse = (n % 10 + 48) :: t ∧
      (n < 10 → t = []) ∧
      (10 ≤ n → ∃ t2, t = ((n / 10) % 10 + 48) :: t2) := by
  obtain ⟨t, ht, hlo, hhi⟩ := decDigitsRev_shape (n + 1) n (by omega)
  refine ⟨t.map (fun d => d + 48), ?_, ?_, ?_⟩
  · unfold decCodes
    rw [List.reverse_reverse, ht]
    rfl
  · intro hn
    rw [hlo hn]
    rfl
  · intro hn
    obtain ⟨t2, ht2⟩ := hhi hn
    exact ⟨t2.map (fun d => d + 48), by rw [ht2]; rfl⟩

/-- C9: on the rendered decimal of any natural number, get_th appends
ST/ND/RD/TH (or the lowercase variants) chosen by the last digit, except
that any number whose tens digit is 1 (the teens, e.g. 11, 12, 13) takes
TH/th, overriding the last-digit rule. -/
theorem get_th_spec (n ty : Nat) :
    get_th (decCodes n) ty =
      .ok (if (n / 10) % 10 = 1 then (if ty = 1 then "TH" else "th")
           else if n % 10 = 1 then (if ty = 1 then "ST" else "st")
           else if n % 10 = 2 then (if ty = 1 then "ND" else "nd")
           else if n % 10 = 3 then (if ty = 1 then "RD" else "rd")
           else (if ty = 1 then "TH" else "th")) := by
  obtain ⟨t, ht, hlo, hhi⟩ := decCodes_reverse n
  have hmlt : n % 10 < 10 := Nat.mod_lt n (by omega)
  unfold get_th
  rw [ht, get_th_rev_cons _ _ _ ⟨by omega, by omega⟩]
  by_cases h10 : 10 ≤ n
  · obtain ⟨t2, ht2⟩ := hhi h10
    subst ht2
    by_cases hteen : (n / 10) % 10 = 1
    · rw [if_pos ⟨by simp, by simp [hteen]⟩, if_pos hteen]
    · have hnot : ¬ ((((n / 10) % 10 + 48) :: t2 : List Nat) ≠ [] ∧
          (((n / 10) % 10 + 48) :: t2).head? = some 49) := by
        rintro ⟨-, hh⟩
        simp only [List.head?_cons, Option.some.injEq] at hh
        omega
      rw [if_neg hnot, if_neg hteen]
      by_cases h1 : n % 10 = 1
      · rw [if_pos (by omega), if_pos h1]
      · rw [if_neg (by omega), if_neg h1]
        by_cases h2 : n % 10 = 2
        · rw [if_pos (by omega), if_pos h2]
        · rw [if_neg (by omega), if_neg h2]
          by_cases h3 : n % 10 = 3
          · rw [if_pos (by omega), if_pos h3]
          · rw [if_neg (by omega), if_neg h3]
  · rw [hlo (by omega)]
    have hteen : (n / 10) % 10 ≠ 1 := by
      have : n / 10 = 0 := Nat.div_eq_of_lt (by omega)
      simp [this]
    rw [if_neg (by simp), if_neg hteen]
    by_cases h1 : n % 10 = 1
    · rw [if_pos (by omega), if_pos h1]
    · rw [if_neg (by omega), if_neg h1]
      by_cases h2 : n % 10 = 2
      · rw [if_pos (by omega), if_pos h2]
      · rw [if_neg (by omega), if_neg h2]
        by_cases h3 : n % 10 = 3
        · rw [if_pos (by omega), if_pos h3]
        · rw [if_neg (by omega), if_neg h3]

/-! The compiled-picture cache, from to_char.c: DCH_CACHE_ENTRIES (line 391),
DCHCache and DCHCounter (lines 412 to 415), DCH_prevent_counter_overflow
(lines 2660 to 2669), DCH_cache_getnew (2672 to 2729), DCH_cache_search
(2732 to 2750) and DCH_cache_fetch (2753 to 2773).  The compiled node
sequence type and parse_format are abstracted as a type parameter F and a
parse function; the C array of allocated slots is the list cache, and
n_DCHCache is its length. -/

/-- One slot of the date/time format-picture cache. -/
structure CEnt (F : Type) where
  str : String
  std : Bool
  valid : Bool
  age : Nat
  fmt : F
deriving Repr, DecidableEq

structure DCHState (F : Type) where
  cache : List (CEnt F)
  counter : Nat
deriving Repr, DecidableEq

def DCH_CACHE_ENTRIES : Nat := 20

def INT_MAX : Nat := 2147483647

def DCH_prevent_counter_overflow {F : Type} (st : DCHState F) : DCHState F :=
  if st.counter ≥ INT_MAX - 1 then
    ⟨st.cache.map (fun e => { e with age := e.age / 2 }), st.counter / 2⟩
  else st

def DCH_cache_search_aux {F : Type} : List (CEnt F) → String → Bool → Nat → Option Nat
  | [], _, _, _ => none
  | e :: rest, str, std, i =>
    if e.valid = true ∧ e.str = str ∧ e.std = std then some i
    else DCH_cache_search_aux rest str std (i + 1)

def DCH_cache_search {F : Type} (str : String) (std : Bool) (st : DCHState F) :
    Option (Nat × DCHState F) :=
  let st1 := DCH_prevent_counter_overflow st
  match DCH_cache_search_aux st1.cache str std 0 with
  | none => none
  | some i =>
    match st1.cache.get? i with
    | some e =>
      some (i, ⟨st1.cache.set i { e with age := st1.counter + 1 }, st1.counter + 1⟩)
    | none => none

def DCH_scan_victim {F : Type} : List (CEnt F) → Nat → Nat → Nat → Nat
  | [], best, _, _ => best
  | e :: rest, best, bestAge, i =>
    if e.valid = false then i
    else if e.age < bestAge then DCH_scan_victim rest i e.age (i + 1)
    else DCH_scan_victim rest best bestAge (i + 1)

def DCH_victim {F : Type} (l : List (CEnt F)) : Nat :=
  match l with
  | [] => 0
  | e0 :: rest => if e0.valid = true then DCH_scan_victim rest 0 e0.age 1 else 0

def DCH_cache_getnew {F : Type} (str : String) (std : Bool) (dflt : F)
    (st : DCHState F) : Nat × DCHState F :=
  let st1 := DCH_prevent_counter_overflow st
  if st1.cache.length ≥ DCH_CACHE_ENTRIES then
    let v := DCH_victim st1.cache
    match st1.cache.get? v with
    | some e =>
      (v, ⟨st1.cache.set v { e with valid := false, str := str, age := st1.counter + 1 },
           st1.counter + 1⟩)
    | none => (v, st1)
  else
    (st1.cache.length,
     ⟨st1.cache ++ [⟨str, std, false, st1.counter + 1, dflt⟩], st1.counter + 1⟩)

def DCH_cache_fetch {F : Type} (parse : String → Bool → Except String F) (dflt : F)
    (str : String) (std : Bool) (st : DCHState F) :
    Except String F × DCHState F :=
  match DCH_cache_search str std st with
  | some (i, st1) =>
    match st1.cache.get? i with
    | some e => (.ok e.fmt, st1)
    | none => (.error "unreachable", st1)
  | none =>
    match parse str std with
    | .error msg => (.error msg, (DCH_cache_getnew str std dflt st).2)
    | .ok f =>
      match ((DCH_cache_getnew str std dflt st).2).cache.get?
          (DCH_cache_getnew str std dflt st).1 with
      | some e =>
        (.ok f, ⟨((DCH_cache_getnew str std dflt st).2).cache.set
            (DCH_cache_getnew str std dflt st).1 { e with fmt := f, valid := true },
          ((DCH_cache_getnew str std dflt st).2).counter⟩)
      | none => (.ok f, (DCH_cache_getnew str std dflt st).2)

/-- The scan keeps the running minimum: the result indexes an entry whose age
is at most every scanned age, or stays at the incoming best. -/
theorem DCH_scan_victim_min {F : Type} :
    ∀ (rest : List (CEnt F)) (best bestAge i : Nat),
      (∀ e ∈ rest, e.valid = true) →
      (DCH_scan_victim rest best bestAge i = best ∧ ∀ x ∈ rest, bestAge ≤ x.age) ∨
      (∃ k x, rest.get? k = some x ∧ DCH_scan_victim rest best bestAge i = i + k ∧
        x.age < bestAge ∧ ∀ x2 ∈ rest, x.age ≤ x2.age) := by
  intro rest
  induction rest with
  | nil => intro best bestAge i _; exact Or.inl ⟨rfl, by simp⟩
  | cons e rest ih =>
    intro best bestAge i hall
    have hev : e.valid = true := hall e (by simp)
    have hrest : ∀ x ∈ rest, x.valid = true := fun x hx => hall x (by simp [hx])
    unfold DCH_scan_victim
    rw [if_neg (by simp [hev])]
    by_cases hage : e.age < bestAge
    · rw [if_pos hage]
      rcases ih i e.age (i + 1) hrest with ⟨hres, hmin⟩ | ⟨k, x, hk, hres, hlt, hmin⟩
      · refine Or.inr ⟨0, e, rfl, by omega, hage, ?_⟩
        intro x2 hx2
        rcases List.mem_cons.mp hx2 with h | h
        · subst h; omega
        · exact hmin x2 h
      · refine Or.inr ⟨k + 1, x, by simpa using hk, by omega, by omega, ?_⟩
        intro x2 hx2
        rcases List.mem_cons.mp hx2 with h | h
        · subst h; omega
        · exact hmin x2 h
    · rw [if_neg hage]
      rcases ih best bestAge (i + 1) hrest with ⟨hres, hmin⟩ | ⟨k, x, hk, hres, hlt, hmin⟩
      · refine Or.inl ⟨hres, ?_⟩
        intro x2 hx2
        rcases List.mem_cons.mp hx2 with h | h
        · subst h; omega
        · exact hmin x2 h
      · refine Or.inr ⟨k + 1, x, by simpa using hk, by omega, hlt, ?_⟩
        intro x2 hx2
        rcases List.mem_cons.mp hx2 with h | h
        · subst h; omega
        · exact hmin x2 h

/-- The scan stops at the first invalid entry when one exists. -/
theorem DCH_scan_victim_invalid {F : Type} :
    ∀ (rest : List (CEnt F)) (best bestAge i : Nat),
      (∃ x ∈ rest, x.valid = false) →
      ∃ k x, rest.get? k = some x ∧ x.valid = false ∧
        DCH_scan_victim rest best bestAge i = i + k := by
  intro rest
  induction rest with
  | nil => intro best bestAge i h; simp at h
  | cons e rest ih =>
    intro best bestAge i hinv
    unfold DCH_scan_victim
    by_cases hev : e.valid = false
    · exact ⟨0, e, rfl, hev, by rw [if_pos hev]; omega⟩
    · rw [if_neg hev]
      have hrest : ∃ x ∈ rest, x.valid = false := by
        rcases hinv with ⟨x, hx, hxv⟩
        rcases List.mem_cons.mp hx with h | h
        · subst h; exact absurd hxv hev
        · exact ⟨x, h, hxv⟩
      by_cases hage : e.age < bestAge
      · rw [if_pos hage]
        obtain ⟨k, x, hk, hxv, hres⟩ := ih i e.age (i + 1) hrest
        exact ⟨k + 1, x, by simpa using hk, hxv, by omega⟩
      · rw [if_neg hage]
        obtain ⟨k, x, hk, hxv, hres⟩ := ih best bestAge (i + 1) hrest
        exact ⟨k + 1, x, by simpa using hk, hxv, by omega⟩

/-- All slots valid: the victim is an entry of minimal age. -/
theorem DCH_victim_min {F : Type} (l : List (CEnt F)) (hne : l ≠ [])
    (hall : ∀ e ∈ l, e.valid = true) :
    ∃ ev, l.get? (DCH_victim l) = some ev ∧ ∀ e ∈ l, ev.age ≤ e.age := by
  cases l with
  | nil => exact absurd rfl hne
  | cons e0 rest =>
    have he0 : e0.valid = true := hall e0 (by simp)
    have hrest : ∀ x ∈ rest, x.valid = true := fun x hx => hall x (by simp [hx])
    simp only [DCH_victim]
    rw [if_pos he0]
    rcases DCH_scan_victim_min rest 0 e0.age 1 hrest with ⟨hres, hmin⟩ | ⟨k, x, hk, hres, hlt, hmin⟩
    · refine ⟨e0, by rw [hres]; rfl, ?_⟩
      intro e he
      rcases List.mem_cons.mp he with h | h
      · subst h; omega
      · exact hmin e h
    · refine ⟨x, ?_, ?_⟩
      · rw [hres, Nat.add_comm]
        simpa using hk
      · intro e he
        rcases List.mem_cons.mp he with h | h
        · subst h; omega
        · exact hmin e h

/-- Some slot invalid: the victim is an invalid entry. -/
theorem DCH_victim_invalid {F : Type} (l : List (CEnt F))
    (hinv : ∃ e ∈ l, e.valid = false) :
    ∃ ev, l.get? (DCH_victim l) = some ev ∧ ev.valid = false := by
  cases l with
  | nil => simp at hinv
  | cons e0 rest =>
    simp only [DCH_victim]
    by_cases he0 : e0.valid = true
    · rw [if_pos he0]
      have hrest : ∃ x ∈ rest, x.valid = false := by
        rcases hinv with ⟨x, hx, hxv⟩
        rcases List.mem_cons.mp hx with h | h
        · subst h; rw [he0] at hxv; cases hxv
        · exact ⟨x, h, hxv⟩
      obtain ⟨k, x, hk, hxv, hres⟩ := DCH_scan_victim_invalid rest 0 e0.age 1 hrest
      refine ⟨x, ?_, hxv⟩
      rw [hres, Nat.add_comm]
      simpa using hk
    · rw [if_neg he0]
      exact ⟨e0, rfl, by simpa using he0⟩

/-- Overflow prevention does not change the number of slots. -/
theorem DCH_prevent_length {F : Type} (st : DCHState F) :
    (DCH_prevent_counter_overflow st).cache.length = st.cache.length := by
  unfold DCH_prevent_counter_overflow
  split_ifs <;> simp

/-- Membership in the overflow-adjusted cache comes from an original entry
with the same text, flag, validity and format. -/
theorem DCH_prevent_mem {F : Type} (st : DCHState F) (e : CEnt F)
    (he : e ∈ (DCH_prevent_counter_overflow st).cache) :
    ∃ e0 ∈ st.cache, e.str = e0.str ∧ e.std = e0.std ∧ e.valid = e0.valid ∧
      e.fmt = e0.fmt := by
  unfold DCH_prevent_counter_overflow at he
  split_ifs at he
  · simp only [List.mem_map] at he
    obtain ⟨e0, he0, rfl⟩ := he
    exact ⟨e0, he0, rfl, rfl, rfl, rfl⟩
  · exact ⟨e, he, rfl, rfl, rfl, rfl⟩

/-- A scan result is either the incoming best index or inside the scanned
range. -/
theorem DCH_scan_victim_range {F : Type} :
    ∀ (rest : List (CEnt F)) (best bestAge i : Nat),
      DCH_scan_victim rest best bestAge i = best ∨
      ∃ k, k < rest.length ∧ DCH_scan_victim rest best bestAge i = i + k := by
  intro rest
  induction rest with
  | nil => intro best bestAge i; exact Or.inl rfl
  | cons e rest ih =>
    intro best bestAge i
    unfold DCH_scan_victim
    by_cases hev : e.valid = false
    · rw [if_pos hev]
      exact Or.inr ⟨0, by simp, by omega⟩
    · rw [if_neg hev]
      by_cases hage : e.age < bestAge
      · rw [if_pos hage]
        rcases ih i e.age (i + 1) with h | ⟨k, hk, h⟩
        · exact Or.inr ⟨0, by simp, by omega⟩
        · refine Or.inr ⟨k + 1, by simp; omega, by omega⟩
      · rw [if_neg hage]
        rcases ih best bestAge (i + 1) with h | ⟨k, hk, h⟩
        · exact Or.inl h
        · refine Or.inr ⟨k + 1, by simp; omega, by omega⟩

/-- The victim index is always in range for a nonempty cache. -/
theorem DCH_victim_lt {F : Type} (l : List (CEnt F)) (hne : l ≠ []) :
    DCH_victim l < l.length := by
  cases l with
  | nil => exact absurd rfl hne
  | cons e0 rest =>
    simp only [DCH_victim]
    by_cases he0 : e0.valid = true
    · rw [if_pos he0]
      rcases DCH_scan_victim_range rest 0 e0.age 1 with h | ⟨k, hk, h⟩
      · rw [h]; simp
      · rw [h]; simp; omega
    · rw [if_neg he0]
      simp

/-- At full capacity, getnew overwrites exactly the victim slot of the
overflow-adjusted cache: validity cleared, text replaced, age refreshed. -/
theorem DCH_cache_getnew_full {F : Type} (str : String) (std : Bool) (dflt : F)
    (st : DCHState F)
    (hfull : (DCH_prevent_counter_overflow st).cache.length ≥ DCH_CACHE_ENTRIES) :
    ∃ e, (DCH_prevent_counter_overflow st).cache.get?
        (DCH_victim (DCH_prevent_counter_overflow st).cache) = some e ∧
      DCH_cache_getnew str std dflt st =
        (DCH_victim (DCH_prevent_counter_overflow st).cache,
         ⟨(DCH_prevent_counter_overflow st).cache.set
            (DCH_victim (DCH_prevent_counter_overflow st).cache)
            { e with valid := false, str := str,
                     age := (DCH_prevent_counter_overflow st).counter + 1 },
          (DCH_prevent_counter_overflow st).counter + 1⟩) := by
  have hne : (DCH_prevent_counter_overflow st).cache ≠ [] := by
    intro h
    rw [h] at hfull
    simp [DCH_CACHE_ENTRIES] at hfull
  have hlt := DCH_victim_lt _ hne
  have he : (DCH_prevent_counter_overflow st).cache.get?
      (DCH_victim (DCH_prevent_counter_overflow st).cache) =
      some ((DCH_prevent_counter_overflow st).cache.get ⟨_, hlt⟩) :=
    List.get?_eq_get hlt
  refine ⟨_, he, ?_⟩
  simp only [DCH_cache_getnew]
  rw [if_pos hfull, he]

/-- Below capacity, getnew appends a fresh invalid slot at the end. -/
theorem DCH_cache_getnew_fresh {F : Type} (str : String) (std : Bool) (dflt : F)
    (st : DCHState F)
    (hfree : ¬ (DCH_prevent_counter_overflow st).cache.length ≥ DCH_CACHE_ENTRIES) :
    DCH_cache_getnew str std dflt st =
      ((DCH_prevent_counter_overflow st).cache.length,
       ⟨(DCH_prevent_counter_overflow st).cache ++
          [⟨str, std, false, (DCH_prevent_counter_overflow st).counter + 1, dflt⟩],
        (DCH_prevent_counter_overflow st).counter + 1⟩) := by
  simp only [DCH_cache_getnew]
  rw [if_neg hfree]

/-- The slot getnew hands back holds the new picture text and is invalid. -/
theorem DCH_cache_getnew_entry {F : Type} (str : String) (std : Bool) (dflt : F)
    (st : DCHState F) :
    ∃ e, ((DCH_cache_getnew str std dflt st).2).cache.get?
        (DCH_cache_getnew str std dflt st).1 = some e ∧
      e.str = str ∧ e.valid = false := by
  by_cases hfull : (DCH_prevent_counter_overflow st).cache.length ≥ DCH_CACHE_ENTRIES
  · obtain ⟨e, he, hgn⟩ := DCH_cache_getnew_full str std dflt st hfull
    rw [hgn]
    have hlt : DCH_victim (DCH_prevent_counter_overflow st).cache <
        (DCH_prevent_counter_overflow st).cache.length := by
      rcases List.get?_eq_some.mp he with ⟨h, _⟩
      exact h
    exact ⟨_, List.get?_set_eq_of_lt _ hlt, rfl, rfl⟩
  · rw [DCH_cache_getnew_fresh str std dflt st hfull]
    exact ⟨_, List.get?_concat_length _ _, rfl, rfl⟩

/-- Every entry of the cache getnew leaves behind either descends from an
original entry with the same text, flag and validity, or is the new invalid
slot for str. -/
theorem DCH_cache_getnew_mem {F : Type} (str : String) (std : Bool) (dflt : F)
    (st : DCHState F) (e : CEnt F)
    (he : e ∈ ((DCH_cache_getnew str std dflt st).2).cache) :
    (∃ e0 ∈ st.cache, e.str = e0.str ∧ e.std = e0.std ∧ e.valid = e0.valid) ∨
    (e.str = str ∧ e.valid = false) := by
  by_cases hfull : (DCH_prevent_counter_overflow st).cache.length ≥ DCH_CACHE_ENTRIES
  · obtain ⟨e1, he1, hgn⟩ := DCH_cache_getnew_full str std dflt st hfull
    rw [hgn] at he
    rcases List.mem_or_eq_of_mem_set he with h | h
    · obtain ⟨e0, he0, h1, h2, h3, _⟩ := DCH_prevent_mem st e h
      exact Or.inl ⟨e0, he0, h1, h2, h3⟩
    · subst h
      exact Or.inr ⟨rfl, rfl⟩
  · rw [DCH_cache_getnew_fresh str std dflt st hfull] at he
    simp only [List.mem_append, List.mem_singleton] at he
    rcases he with h | h
    · obtain ⟨e0, he0, h1, h2, h3, _⟩ := DCH_prevent_mem st e h
      exact Or.inl ⟨e0, he0, h1, h2, h3⟩
    · subst h
      exact Or.inr ⟨rfl, rfl⟩

/-- getnew keeps the slot count within capacity. -/
theorem DCH_cache_getnew_length {F : Type} (str : String) (std : Bool) (dflt : F)
    (st : DCHState F) (hcap : st.cache.length ≤ DCH_CACHE_ENTRIES) :
    ((DCH_cache_getnew str std dflt st).2).cache.length ≤ DCH_CACHE_ENTRIES := by
  by_cases hfull : (DCH_prevent_counter_overflow st).cache.length ≥ DCH_CACHE_ENTRIES
  · obtain ⟨e, he, hgn⟩ := DCH_cache_getnew_full str std dflt st hfull
    rw [hgn]
    simp only [List.length_set]
    rw [DCH_prevent_length]
    exact hcap
  · rw [DCH_cache_getnew_fresh str std dflt st hfull]
    simp only [List.length_append, List.length_singleton]
    omega

/-- A fruitless scan of the cache. -/
theorem DCH_search_aux_none {F : Type} :
    ∀ (l : List (CEnt F)) (str : String) (std : Bool) (i : Nat),
      (∀ e ∈ l, ¬ (e.valid = true ∧ e.str = str ∧ e.std = std)) →
      DCH_cache_search_aux l str std i = none := by
  intro l
  induction l with
  | nil => intro str std i _; rfl
  | cons e rest ih =>
    intro str std i hmiss
    unfold DCH_cache_search_aux
    rw [if_neg (hmiss e (by simp))]
    exact ih str std (i + 1) (fun x hx => hmiss x (by simp [hx]))

/-- A picture matching no valid entry misses the cache. -/
theorem DCH_cache_search_none {F : Type} (str : String) (std : Bool)
    (st : DCHState F)
    (hmiss : ∀ e ∈ st.cache, ¬ (e.valid = true ∧ e.str = str ∧ e.std = std)) :
    DCH_cache_search str std st = none := by
  simp only [DCH_cache_search]
  rw [DCH_search_aux_none _ str std 0 ?_]
  intro e he
  obtain ⟨e0, he0, h1, h2, h3, _⟩ := DCH_prevent_mem st e he
  intro ⟨hv, hs, hd⟩
  exact hmiss e0 he0 ⟨h3 ▸ hv, h1 ▸ hs, h2 ▸ hd⟩

/-- On a miss with a compilable picture, fetch compiles it, stores it, and
marks the slot valid. -/
theorem DCH_fetch_miss_ok {F : Type} (parse : String → Bool → Except String F)
    (dflt : F) (str : String) (std : Bool) (st : DCHState F) (f : F)
    (hmiss : ∀ e ∈ st.cache, ¬ (e.valid = true ∧ e.str = str ∧ e.std = std))
    (hok : parse str std = .ok f) :
    ∃ st2, DCH_cache_fetch parse dflt str std st = (.ok f, st2) ∧
      ∃ v e, st2.cache.get? v = some e ∧ e.str = str ∧ e.valid = true ∧
        e.fmt = f := by
  have hs := DCH_cache_search_none str std st hmiss
  obtain ⟨e1, he1, hstr, hinv⟩ := DCH_cache_getnew_entry str std dflt st
  have hlt : (DCH_cache_getnew str std dflt st).1 <
      ((DCH_cache_getnew str std dflt st).2).cache.length := by
    rcases List.get?_eq_some.mp he1 with ⟨h, _⟩
    exact h
  refine ⟨⟨((DCH_cache_getnew str std dflt st).2).cache.set
      (DCH_cache_getnew str std dflt st).1 { e1 with fmt := f, valid := true },
      ((DCH_cache_getnew str std dflt st).2).counter⟩, ?_, ?_⟩
  · simp only [DCH_cache_fetch]
    rw [hs, hok, he1]
  · refine ⟨(DCH_cache_getnew str std dflt st).1,
      { e1 with fmt := f, valid := true }, ?_, hstr, rfl, rfl⟩
    exact List.get?_set_eq_of_lt _ hlt

/-- On a miss with a malformed picture, fetch reports the error and the slot
it touched stays invalid: no valid entry for the picture exists afterwards. -/
theorem DCH_fetch_miss_error {F : Type} (parse : String → Bool → Except String F)
    (dflt : F) (str : String) (std : Bool) (st : DCHState F) (msg : String)
    (hmiss : ∀ e ∈ st.cache, ¬ (e.valid = true ∧ e.str = str ∧ e.std = std))
    (herr : parse str std = .error msg) :
    ∃ st2, DCH_cache_fetch parse dflt str std st = (.error msg, st2) ∧
      ∀ e ∈ st2.cache, e.str = str → e.std = std → e.valid = false := by
  have hs := DCH_cache_search_none str std st hmiss
  refine ⟨(DCH_cache_getnew str std dflt st).2, ?_, ?_⟩
  · simp only [DCH_cache_fetch]
    rw [hs, herr]
  · intro e he hestr hestd
    rcases DCH_cache_getnew_mem str std dflt st e he with ⟨e0, he0, h1, h2, h3⟩ | ⟨_, h⟩
    · have := hmiss e0 he0
      rw [← h1, ← h2, ← h3] at this
      rcases Bool.eq_false_or_eq_true e.valid with h | h
      · exact absurd ⟨h, hestr, hestd⟩ this
      · exact h
    · exact h

/-- Fetch keeps the cache within its 20-slot capacity. -/
theorem DCH_fetch_length {F : Type} (parse : String → Bool → Except String F)
    (dflt : F) (str : String) (std : Bool) (st : DCHState F)
    (hcap : st.cache.length ≤ DCH_CACHE_ENTRIES) :
    ((DCH_cache_fetch parse dflt str std st).2).cache.length ≤ DCH_CACHE_ENTRIES := by
  simp only [DCH_cache_fetch]
  rcases hsearch : DCH_cache_search str std st with _ | ⟨i, st1⟩
  · rcases hp : parse str std with msg | f
    · simpa using DCH_cache_getnew_length str std dflt st hcap
    · rcases hget : ((DCH_cache_getnew str std dflt st).2).cache.get?
          (DCH_cache_getnew str std dflt st).1 with _ | e
      · simpa using DCH_cache_getnew_length str std dflt st hcap
      · simp only [List.length_set]
        simpa using DCH_cache_getnew_length str std dflt st hcap
  · have hlen : st1.cache.length = st.cache.length := by
      simp only [DCH_cache_search] at hsearch
      rcases haux : DCH_cache_search_aux
          (DCH_prevent_counter_overflow st).cache str std 0 with _ | j
      · simp only [haux] at hsearch
        cases hsearch
      · simp only [haux] at hsearch
        rcases hget : (DCH_prevent_counter_overflow st).cache.get? j with _ | e
        · simp only [hget] at hsearch
          cases hsearch
        · simp only [hget, Option.some.injEq, Prod.mk.injEq] at hsearch
          rw [← hsearch.2]
          simp [DCH_prevent_length]
    rcases hget2 : st1.cache.get? i with _ | e <;>
      simp only [hget2] <;> rw [hlen] <;> exact hcap

/-- C7: the compiled-picture cache (i) never exceeds its 20-slot capacity;
(ii) at full capacity the victim slot chosen by getnew is an invalid slot
when one exists and otherwise a slot of minimum age, and getnew overwrites
exactly that slot with the new picture text, leaving it invalid; (iii) a
picture absent from the cache, for instance one previously evicted, is
recompiled by fetch without error when it parses, and its slot is marked
valid holding the compiled nodes; (iv) when compilation fails the error
propagates and no slot for that picture is left valid. -/
theorem dch_cache_spec {F : Type} (parse : String → Bool → Except String F)
    (dflt : F) (str : String) (std : Bool) (st : DCHState F) :
    (st.cache.length ≤ DCH_CACHE_ENTRIES →
      ((DCH_cache_fetch parse dflt str std st).2).cache.length ≤
        DCH_CACHE_ENTRIES) ∧
    (∀ l : List (CEnt F), l.length = DCH_CACHE_ENTRIES →
      ((∀ e ∈ l, e.valid = true) →
        ∃ ev, l.get? (DCH_victim l) = some ev ∧ ∀ e ∈ l, ev.age ≤ e.age) ∧
      ((∃ e ∈ l, e.valid = false) →
        ∃ ev, l.get? (DCH_victim l) = some ev ∧ ev.valid = false)) ∧
    ((DCH_prevent_counter_overflow st).cache.length ≥ DCH_CACHE_ENTRIES →
      ∃ e, (DCH_prevent_counter_overflow st).cache.get?
          (DCH_victim (DCH_prevent_counter_overflow st).cache) = some e ∧
        DCH_cache_getnew str std dflt st =
          (DCH_victim (DCH_prevent_counter_overflow st).cache,
           ⟨(DCH_prevent_counter_overflow st).cache.set
              (DCH_victim (DCH_prevent_counter_overflow st).cache)
              { e with valid := false, str := str,
                       age := (DCH_prevent_counter_overflow st).counter + 1 },
            (DCH_prevent_counter_overflow st).counter + 1⟩)) ∧
    (∀ f, parse str std = .ok f →
      (∀ e ∈ st.cache, ¬ (e.valid = true ∧ e.str = str ∧ e.std = std)) →
      ∃ st2, DCH_cache_fetch parse dflt str std st = (.ok f, st2) ∧
        ∃ v e, st2.cache.get? v = some e ∧ e.str = str ∧ e.valid = true ∧
          e.fmt = f) ∧
    (∀ msg, parse str std = .error msg →
      (∀ e ∈ st.cache, ¬ (e.valid = true ∧ e.str = str ∧ e.std = std)) →
      ∃ st2, DCH_cache_fetch parse dflt str std st = (.error msg, st2) ∧
        ∀ e ∈ st2.cache, e.str = str → e.std = std → e.valid = false) := by
  refine ⟨DCH_fetch_length parse dflt str std st, ?_,
    DCH_cache_getnew_full str std dflt st,
    fun f hok hmiss => DCH_fetch_miss_ok parse dflt str std st f hmiss hok,
    fun msg herr hmiss => DCH_fetch_miss_error parse dflt str std st msg hmiss herr⟩
  intro l hl
  refine ⟨fun hall => DCH_victim_min l ?_ hall, DCH_victim_invalid l⟩
  intro h
  rw [h] at hl
  simp [DCH_CACHE_ENTRIES] at hl

/-- A concrete full cache of 20 valid entries used by the C7 witness. -/
def dchW : DCHState Nat :=
  ⟨[⟨"p0", false, true, 3, 0⟩, ⟨"p1", false, true, 4, 0⟩,
    ⟨"p2", false, true, 5, 0⟩, ⟨"p3", false, true, 6, 0⟩,
    ⟨"p4", false, true, 1, 0⟩, ⟨"p5", false, true, 7, 0⟩,
    ⟨"p6", false, true, 8, 0⟩, ⟨"p7", false, true, 9, 0⟩,
    ⟨"p8", false, true, 10, 0⟩, ⟨"p9", false, true, 11, 0⟩,
    ⟨"p10", false, true, 12, 0⟩, ⟨"p11", false, true, 13, 0⟩,
    ⟨"p12", false, true, 14, 0⟩, ⟨"p13", false, true, 15, 0⟩,
    ⟨"p14", false, true, 16, 0⟩, ⟨"p15", false, true, 17, 0⟩,
    ⟨"p16", false, true, 18, 0⟩, ⟨"p17", false, true, 19, 0⟩,
    ⟨"p18", false, true, 20, 0⟩, ⟨"p19", false, true, 21, 0⟩], 21⟩

/-- The compiler used by the C7 witness: every picture compiles to 7. -/
def dchParseW : String → Bool → Except String Nat := fun _ _ => .ok 7

/-- Witness for C7 at the concrete full cache dchW and the new picture
YYYY. -/
theorem dch_cache_spec_witness :
    dchW.cache.length ≤ DCH_CACHE_ENTRIES ∧
    dchW.cache.length = DCH_CACHE_ENTRIES ∧
    (∀ e ∈ dchW.cache, e.valid = true) ∧
    dchParseW "YYYY" false = .ok 7 ∧
    (∀ e ∈ dchW.cache, ¬ (e.valid = true ∧ e.str = "YYYY" ∧ e.std = false)) ∧
    ((DCH_cache_fetch dchParseW 0 "YYYY" false dchW).2).cache.length ≤
      DCH_CACHE_ENTRIES ∧
    (∃ ev, dchW.cache.get? (DCH_victim dchW.cache) = some ev ∧
      ∀ e ∈ dchW.cache, ev.age ≤ e.age) ∧
    (∃ st2, DCH_cache_fetch dchParseW 0 "YYYY" false dchW = (.ok 7, st2) ∧
      ∃ v e, st2.cache.get? v = some e ∧ e.str = "YYYY" ∧ e.valid = true ∧
        e.fmt = 7) :=
  ⟨by decide, by decide, by decide, rfl, by decide,
   (dch_cache_spec dchParseW 0 "YYYY" false dchW).1 (by decide),
   ((dch_cache_spec dchParseW 0 "YYYY" false dchW).2.1 dchW.cache (by decide)).1
     (by decide),
   (dch_cache_spec dchParseW 0 "YYYY" false dchW).2.2.2.1 7 rfl (by decide)⟩

/-! The to_char glue, from timestampandtz_to_char in src/to_char.c lines
2844 to 2887, with the renderer cases for the calendar and time keywords
(DCH_to_char, lines 2020 to 2651).  The glue zeroes a TmToChar (ZERO_tmtc:
all fmt_tm fields 0 except mday = mon = 1), decomposes the instant into the
separate pg_tm variable tt and the fsec and tzn slots, computes wday and
yday from the fmt_tm fields, and hands the TmToChar to the renderer: the
decomposed tt is never copied into the fmt_tm. -/

/-- The fmt_tm fields read by the keywords modelled here. -/
structure FmtTm where
  year : Int
  mon : Int
  mday : Int
  hour : Int
  min : Int
  sec : Int
  wday : Int
  yday : Int
deriving Repr, DecidableEq

/-- ZERO_tm: all fields zero except mday = mon = 1. -/
def ZERO_fmt_tm : FmtTm := ⟨0, 1, 1, 0, 0, 0, 0, 0⟩

/-- TmToChar: the renderer input. -/
structure TmToChar where
  tm : FmtTm
  fsec : Int
  tzn : Option String
deriving Repr, DecidableEq

/-- The TmToChar built by timestampandtz_to_char before rendering: NULL on
an empty picture, a non-finite instant, or zone id 0; the zone name is
resolved (out-of-range ids are an unchecked read); decomposition failure is
a reported error; otherwise the fmt_tm is the zeroed struct with wday and
yday computed from its own (zeroed) date fields, while only fsec and the
zone abbreviation come from the decomposition. -/
def timestampandtz_to_char_tmtc (h : Host) (dt : TimestampAndTz) (fmtLen : Nat) :
    CRes (Option TmToChar) :=
  if fmtLen = 0 ∨ TIMESTAMP_NOT_FINITE dt.time then .ok none
  else if dt.tz = 0 then .ok none
  else
    match tzid_to_tzname dt.tz with
    | none => .crash
    | some nm =>
      match h.timestamp2tm dt.time (some nm) with
      | none => .err "timestamp out of range"
      | some d =>
        .ok (some ⟨{ ZERO_fmt_tm with
            wday := Int.tmod (h.date2j 0 1 1 + 1) 7,
            yday := h.date2j 0 1 1 - h.date2j 0 1 1 + 1 },
          d.fsec, d.tzn⟩)

/-- The format nodes modelled: literal characters and the plain (no suffix)
day, month, year, hour, minute and second keywords. -/
inductive DchNode where
  | lit (c : String)
  | dd
  | mm
  | yyyy
  | hh24
  | mi
  | ss
deriving Repr, DecidableEq

/-- Digit characters of a list of byte codes. -/
def codesToString (l : List Nat) : String := ⟨l.map Char.ofNat⟩

/-- sprintf %0*d for a nonnegative value: zero-pad to width w. -/
def natPadStr (w : Nat) (n : Nat) : String :=
  ⟨List.replicate (w - (decCodes n).length) (Char.ofNat 48) ++
    (decCodes n).map Char.ofNat⟩

/-- sprintf %0*d: sign first, zeros between sign and digits. -/
def sprintfPad (w : Nat) (v : Int) : String :=
  if v < 0 then "-" ++ natPadStr (w - 1) v.natAbs else natPadStr w v.natAbs

/-- One renderer action, transcribed from the corresponding DCH_to_char
cases with an empty suffix (no FM, no TH): widths and the no-year-zero
adjustment as in the source. -/
def renderNode (tmtc : TmToChar) (node : DchNode) : String :=
  match node with
  | .lit c => c
  | .dd => sprintfPad 2 tmtc.tm.mday
  | .mm => sprintfPad (if 0 ≤ tmtc.tm.mon then 2 else 3) tmtc.tm.mon
  | .hh24 => sprintfPad (if 0 ≤ tmtc.tm.hour then 2 else 3) tmtc.tm.hour
  | .mi => sprintfPad (if 0 ≤ tmtc.tm.min then 2 else 3) tmtc.tm.min
  | .ss => sprintfPad (if 0 ≤ tmtc.tm.sec then 2 else 3) tmtc.tm.sec
  | .yyyy =>
    sprintfPad
      (if 0 ≤ (if tmtc.tm.year ≤ 0 then -(tmtc.tm.year - 1) else tmtc.tm.year)
       then 4 else 5)
      (if tmtc.tm.year ≤ 0 then -(tmtc.tm.year - 1) else tmtc.tm.year)

/-- The renderer walk over a node sequence. -/
def DCH_to_char_model (nodes : List DchNode) (tmtc : TmToChar) : String :=
  String.join (nodes.map (renderNode tmtc))

set_option maxRecDepth 100000 in
/-- C3 (code_bug evidence): with a host whose decomposition of instant 0 in
America/Chicago (zone id 94) is 2014-09-18 20:15:00, the TmToChar reaching
the renderer still carries the zeroed calendar fields (year 0, month 1, day
1, 00:00:00) because the decomposed tt is never copied into it, so DD
renders "01" and HH24:MI renders "00:00" instead of the fields of the local
decomposition (day 18, 20:15) required by the claim and by the expected
regression output of the repository. -/
theorem to_char_zeroed_tm_eval :
    timestampandtz_to_char_tmtc hostW ⟨0, 94⟩ 2 =
      .ok (some ⟨⟨0, 1, 1, 0, 0, 0, 4, 1⟩, 0, some "EDT"⟩) ∧
    hostW.timestamp2tm 0 (some "America/Chicago") =
      some ⟨⟨2014, 9, 18, 20, 15, 0⟩, 0, some "EDT"⟩ ∧
    DCH_to_char_model [.dd] ⟨⟨0, 1, 1, 0, 0, 0, 4, 1⟩, 0, some "EDT"⟩ = "01" ∧
    DCH_to_char_model [.hh24, .lit ":", .mi]
      ⟨⟨0, 1, 1, 0, 0, 0, 4, 1⟩, 0, some "EDT"⟩ = "00:00" ∧
    DCH_to_char_model [.dd] ⟨⟨2014, 9, 18, 20, 15, 0, 4, 261⟩, 0, some "EDT"⟩ = "18" := by
  refine ⟨by decide, by decide, by decide, by decide, by decide⟩
